import Mathlib

/-!
Verification of the pybird reply decoder (src/pybird/__init__.py).

The decoding core of pybird is shallowly embedded here: every Python helper
that the claims touch (`_extract_field_number`, `_parse_configure`,
`_parse_route_data` with its regex-based summary parsers,
`_parse_peer_summary`, `_parse_peer_detail`, `_parse_route_stats`,
`_calculate_datetime`, `_parse_router_status_line`) is translated into an
executable Lean definition.  Python regular expressions are interpreted by a
small backtracking engine (`reMatch`) whose result list is ordered exactly
like CPython's backtracking order (greedy quantifiers, left-biased
alternation), so that `re.match` corresponds to the head of the result list.
Python exceptions are modelled by `Except PyExc`, Python `dict`s by ordered
association lists with in-place update, and `datetime` objects by a plain
record of numeric fields.
-/

namespace Pybird

/-- Python exceptions that the decoding core can raise. -/
inductive PyExc where
  | valueError (msg : String)
  | indexError
  | attributeError
  | typeError
  | stopIteration
  | overflowError
deriving DecidableEq, Repr

/-- A Python value as stored in the decoders' result dicts: a string, an
integer, a boolean, `None`, or (for route-detail attributes) a nested
string-keyed dict of optional strings. -/
inductive PyVal where
  | s (v : String)
  | i (n : Int)
  | b (v : Bool)
  | none
  | m (entries : List (String × Option String))
deriving DecidableEq, Repr

/-- A Python dict with string keys, kept in insertion order. -/
abbrev Rec := List (String × PyVal)

/-- `d[k] = v` on an ordered dict: replace in place, else append. -/
def pySet (d : Rec) (k : String) (v : PyVal) : Rec :=
  match d with
  | [] => [(k, v)]
  | (k', v') :: rest =>
      if k' = k then (k', v) :: rest else (k', v') :: pySet rest k v

/-- `d.get(k)` on an ordered dict. -/
def pyGet (d : Rec) (k : String) : Option PyVal :=
  match d with
  | [] => Option.none
  | (k', v') :: rest => if k' = k then some v' else pyGet rest k

/-- `del d[k]` on an ordered dict. -/
def pyDel (d : Rec) (k : String) : Rec :=
  match d with
  | [] => []
  | (k', v') :: rest => if k' = k then rest else (k', v') :: pyDel rest k

/-- `d.update(other)` on ordered dicts. -/
def pyUpdate (d other : Rec) : Rec := other.foldl (fun acc p => pySet acc p.1 p.2) d

/-- In-place update on the nested attribute dicts of route details. -/
def setAssoc (d : List (String × Option String)) (k : String) (v : Option String) :
    List (String × Option String) :=
  match d with
  | [] => [(k, v)]
  | (k', v') :: rest => if k' = k then (k', v) :: rest else (k', v') :: setAssoc rest k v

/-- Python truthiness of a `PyVal` (only the cases the source exercises:
`None`, empty strings and empty dicts are falsy). -/
def pyTruthy : PyVal → Bool
  | .s v => v ≠ ""
  | .i n => n ≠ 0
  | .b v => v
  | .none => false
  | .m entries => entries ≠ []

/-- The ASCII whitespace characters recognised by Python's `str.strip()`,
`str.split()` and the regex class `\s`. -/
def pyIsSpace (c : Char) : Bool :=
  c = ' ' ∨ c = '\t' ∨ c = '\n' ∨ c = '\r' ∨ c = '\x0b' ∨ c = '\x0c'

/-- `str.strip()` restricted to a character predicate (used for both the
whitespace strip and `strip("-")`). -/
def stripBy (p : Char → Bool) (s : String) : String :=
  String.mk (((s.data.dropWhile p).reverse.dropWhile p).reverse)

/-- Python `str.strip()`. -/
def pyStrip (s : String) : String := stripBy pyIsSpace s

/-- Python `str.strip("-")`. -/
def pyStripDash (s : String) : String := stripBy (fun c => c = '-') s

/-- Python `str.split()` — split on whitespace runs, dropping empty pieces. -/
def splitWsAux : List Char → List Char → List String
  | [], acc => if acc = [] then [] else [String.mk acc.reverse]
  | c :: rest, acc =>
      if pyIsSpace c then
        if acc = [] then splitWsAux rest []
        else String.mk acc.reverse :: splitWsAux rest []
      else splitWsAux rest (c :: acc)

def pySplitWs (s : String) : List String := splitWsAux s.data []

/-- Python `s.split(sep)` for a single-character separator (keeps empty
pieces, like `str.split` with an explicit separator). -/
def splitCharAux (sep : Char) : List Char → List Char → List String
  | [], acc => [String.mk acc.reverse]
  | c :: rest, acc =>
      if c = sep then String.mk acc.reverse :: splitCharAux sep rest []
      else splitCharAux sep rest (c :: acc)

def pySplitChar (s : String) (sep : Char) : List String := splitCharAux sep s.data []

/-- Python `str.replace(pat, rep)` — all non-overlapping occurrences,
left to right (the patterns used are never empty).  The fuel argument
(one unit per consumed character) keeps the recursion structural; with
fuel = input length it is never exhausted. -/
def replaceListAux (pat rep : List Char) : Nat → List Char → List Char
  | _, [] => []
  | 0, l => l
  | Nat.succ fuel, c :: rest =>
      if pat ≠ [] ∧ pat.isPrefixOf (c :: rest) then
        rep ++ replaceListAux pat rep fuel (rest.drop (pat.length - 1))
      else c :: replaceListAux pat rep fuel rest

def pyReplace (s pat rep : String) : String :=
  String.mk (replaceListAux pat.data rep.data s.data.length s.data)

/-- Python `str.startswith`. -/
def pyStartsWith (s pre : String) : Bool := pre.data.isPrefixOf s.data

/-- Decimal rendering of a `Nat` (a kernel-reducible `toString`; the fuel
is one unit per digit and is never exhausted). -/
def natDigitsAux : Nat → Nat → List Char → List Char
  | 0, _, acc => acc
  | Nat.succ fuel, n, acc =>
      let acc := Char.ofNat ('0'.toNat + n % 10) :: acc
      if n < 10 then acc else natDigitsAux fuel (n / 10) acc

def natToStr (n : Nat) : String := String.mk (natDigitsAux (n + 1) n [])

/-- Python `str.lower()` (ASCII). -/
def pyLower (s : String) : String := String.mk (s.data.map Char.toLower)

/-- Python `c in s` for a single character `c`. -/
def pyContainsChar (s : String) (c : Char) : Bool := s.data.contains c

/-- Python `str.splitlines()` for the line terminators `\n`, `\r` and
`\r\n` (the ones a BIRD reply can contain). -/
def splitlinesAux : List Char → List Char → List String
  | [], [] => []
  | [], acc => [String.mk acc.reverse]
  | '\r' :: '\n' :: rest, acc => String.mk acc.reverse :: splitlinesAux rest []
  | '\r' :: rest, acc => String.mk acc.reverse :: splitlinesAux rest []
  | '\n' :: rest, acc => String.mk acc.reverse :: splitlinesAux rest []
  | c :: rest, acc => splitlinesAux rest (c :: acc)

/-- Python `str.splitlines()`. -/
def pySplitlines (s : String) : List String := splitlinesAux s.data []

/-- Numeric value of a nonempty digit string. -/
def digitsVal : List Char → Option Nat
  | [] => Option.none
  | cs =>
      if cs.all Char.isDigit then
        some (cs.foldl (fun acc c => acc * 10 + c.toNat - '0'.toNat) 0)
      else Option.none

/-- Python `int(s)`: surrounding whitespace is stripped, an optional single
sign is allowed, the rest must be decimal digits. -/
def pyInt (s : String) : Option Int :=
  match (pyStrip s).data with
  | '-' :: cs => (digitsVal cs).map (fun n => -(n : Int))
  | '+' :: cs => (digitsVal cs).map (fun n => (n : Int))
  | cs => (digitsVal cs).map (fun n => (n : Int))

/-- `int` on a digit-only capture of `(\d+)`. -/
def natOfDigits (s : String) : Option Nat := digitsVal s.data

/-- Split a character list at the first occurrence of `sep`. -/
def breakAtChar (sep : Char) : List Char → Option (List Char × List Char)
  | [] => Option.none
  | c :: rest =>
      if c = sep then some ([], rest)
      else (breakAtChar sep rest).map (fun p => (c :: p.1, p.2))

/-- Python `s.split(":", 1)`: `some (before, after)` at the first colon,
`none` when the string has no colon (the callers catch that `ValueError`). -/
def pySplitColon1 (s : String) : Option (String × String) :=
  (breakAtChar ':' s.data).map (fun p => (String.mk p.1, String.mk p.2))

/-- Python `s.split(" ", 3)`: at most three splits at single spaces. -/
def splitSpaceMax : Nat → List Char → List String
  | _, [] => [""]
  | 0, cs => [String.mk cs]
  | Nat.succ k, c :: rest =>
      if c = ' ' then "" :: splitSpaceMax k rest
      else match splitSpaceMax (Nat.succ k) rest with
        | [] => [String.mk [c]]
        | piece :: pieces => (String.mk (c :: piece.data)) :: pieces

/-- `s.split(" ", 3)[-1]`. -/
def lastOfSplitSpace3 (s : String) : String :=
  (splitSpaceMax 3 s.data).getLastD ""

/-! ### A backtracking regex engine with CPython `re` semantics

The patterns in pybird use only character classes, the greedy quantifiers
`+` (always over a single character class) and `?`, alternation, literals
and named groups, so the abstract syntax below covers them exactly.
`reMatch` returns every way of matching a prefix of the input, ordered the
way CPython's backtracking explores them (longest-first for `+`,
left-branch-first for `|`, present-first for `?`); `re.match` is the head
of that list. -/

inductive RE where
  | eps
  | cls (p : Char → Bool)
  | plus1 (p : Char → Bool)
  | seq (a b : RE)
  | alt (a b : RE)
  | opt (a : RE)
  | grp (name : String) (a : RE)

/-- Capture environment: innermost-latest first. -/
abbrev CapEnv := List (String × String)

/-- All match results: pairs of (remaining input, captures so far). -/
abbrev RRes := List (List Char × CapEnv)

/-- One character from a class. -/
def clsRes (p : Char → Bool) : List Char → CapEnv → RRes
  | [], _ => []
  | c :: rest, env => if p c then [(rest, env)] else []

/-- Greedy `+` over a class: consume `k` characters for `k = run, …, 1`
where `run` is the maximal run of class characters. -/
def plusGo (s : List Char) (env : CapEnv) : Nat → RRes
  | 0 => []
  | Nat.succ k => (s.drop (k + 1), env) :: plusGo s env k

def plusRes (p : Char → Bool) (s : List Char) (env : CapEnv) : RRes :=
  plusGo s env (s.takeWhile p).length

/-- Sequence the continuation over every pending result, preserving order. -/
def seqAll : RRes → (List Char → CapEnv → RRes) → RRes
  | [], _ => []
  | (s, e) :: rest, f => f s e ++ seqAll rest f

def reMatch : RE → List Char → CapEnv → RRes
  | .eps, s, env => [(s, env)]
  | .cls p, s, env => clsRes p s env
  | .plus1 p, s, env => plusRes p s env
  | .seq a b, s, env => seqAll (reMatch a s env) (fun s' e' => reMatch b s' e')
  | .alt a b, s, env => reMatch a s env ++ reMatch b s env
  | .opt a, s, env => reMatch a s env ++ [(s, env)]
  | .grp n a, s, env =>
      (reMatch a s env).map
        (fun pr => (pr.1, (n, String.mk (s.take (s.length - pr.1.length))) :: pr.2))

/-- `pattern.match(s)` — anchored at the start, first result in
backtracking order. -/
def pyMatch (r : RE) (s : String) : Option (List Char × CapEnv) :=
  (reMatch r s.data []).head?

/-- `re.search`-style scan: first position (leftmost) with a match. -/
def reSearch (r : RE) : List Char → Option (List Char × CapEnv)
  | [] => (reMatch r [] []).head?
  | c :: rest =>
      match (reMatch r (c :: rest) []).head? with
      | some m => some m
      | Option.none => reSearch r rest

/-- Group lookup in a capture environment. -/
def lookupCap (env : CapEnv) (n : String) : Option String :=
  match env with
  | [] => Option.none
  | (n', v) :: rest => if n' = n then some v else lookupCap rest n

/-- `match.groupdict()` restricted to the given named groups, in pattern
order; an unparticipating group maps to `None`. -/
def groupdictOf (names : List String) (env : CapEnv) : Rec :=
  names.map (fun n =>
    (n, match lookupCap env n with
        | some v => PyVal.s v
        | Option.none => PyVal.none))

/-- A literal string as a pattern. -/
def strToRe (s : String) : RE :=
  s.data.foldr (fun c r => RE.seq (RE.cls (fun x => x = c)) r) RE.eps

/-- A single literal character. -/
def chrRe (c : Char) : RE := RE.cls (fun x => x = c)

/-- Right-nested sequencing of a pattern list. -/
def seqList (rs : List RE) : RE := rs.foldr RE.seq RE.eps

/-! ### The character classes used by pybird's patterns -/

/-- `\w` (ASCII). -/
def isWordChar (c : Char) : Bool := c.isAlpha ∨ c.isDigit ∨ c = '_'

/-- `[a-f0-9\.:\/]` — the address/prefix class. -/
def isAddrChar (c : Char) : Bool :=
  ('a' ≤ c ∧ c ≤ 'f') ∨ c.isDigit ∨ c = '.' ∨ c = ':' ∨ c = '/'

/-- `[^\s]`. -/
def isNotSpace (c : Char) : Bool := ¬ pyIsSpace c

/-- `[^\]\s]`. -/
def isTimeChar (c : Char) : Bool := ¬ pyIsSpace c ∧ c ≠ ']'

/-- `[\w\/\-\?]` — the preference class. -/
def isPrefChar (c : Char) : Bool := isWordChar c ∨ c = '/' ∨ c = '-' ∨ c = '?'

/-- `[\w\s]`. -/
def isWordOrSpace (c : Char) : Bool := isWordChar c ∨ pyIsSpace c

/-! ### The concrete patterns of `_parse_route_data` and friends -/

/-- `^(\d+)[ -]` — the field-number pattern of `_extract_field_number`. -/
def fieldNumberRe : RE :=
  RE.seq (RE.grp "num" (RE.plus1 Char.isDigit))
    (RE.cls (fun c => c = ' ' ∨ c = '-'))

/-- `([\sa-f0-9\.:\/]+)?(?:unicast|blackhole)\s+\[` — the dialect-B
(bird 2) route-summary detector. -/
def bird2routeRe : RE :=
  seqList
    [ RE.opt (RE.plus1 (fun c => pyIsSpace c ∨ isAddrChar c))
    , RE.alt (strToRe "unicast") (strToRe "blackhole")
    , RE.plus1 pyIsSpace
    , chrRe '[' ]

/-- `(?:[a-f0-9\.:\/]+)?(\s+)?(?:via\s([^\s]+)\s+on\s+|\s+dev\s+)([\w\s]+)\[`
— the dialect-A (bird 1) route-summary detector. -/
def bird1routeRe : RE :=
  seqList
    [ RE.opt (RE.plus1 isAddrChar)
    , RE.opt (RE.plus1 pyIsSpace)
    , RE.alt
        (seqList [ strToRe "via", RE.cls pyIsSpace, RE.plus1 isNotSpace
                 , RE.plus1 pyIsSpace, strToRe "on", RE.plus1 pyIsSpace ])
        (seqList [ RE.plus1 pyIsSpace, strToRe "dev", RE.plus1 pyIsSpace ])
    , RE.plus1 isWordOrSpace
    , chrRe '[' ]

/-- The shared bracketed tail
`\[(?P<source>[^\s]+)\s+(?P<time>[^\]\s]+)(?:\s+from\s+(?P<peer2>[^\s]+))?\]\s+(?:(?P<best>[*,!])\s+)?(?:\((?P<preference>[\w\/\-\?]+)\))?(?:\s+\[AS(?P<asn>\d+)[\w\?]\])?`
of both summary patterns. -/
def summaryTailRe : RE :=
  seqList
    [ chrRe '['
    , RE.grp "source" (RE.plus1 isNotSpace)
    , RE.plus1 pyIsSpace
    , RE.grp "time" (RE.plus1 isTimeChar)
    , RE.opt (seqList [ RE.plus1 pyIsSpace, strToRe "from", RE.plus1 pyIsSpace
                      , RE.grp "peer2" (RE.plus1 isNotSpace) ])
    , chrRe ']'
    , RE.plus1 pyIsSpace
    , RE.opt (RE.seq (RE.grp "best" (RE.cls (fun c => c = '*' ∨ c = ',' ∨ c = '!')))
        (RE.plus1 pyIsSpace))
    , RE.opt (seqList [ chrRe '(', RE.grp "preference" (RE.plus1 isPrefChar), chrRe ')' ])
    , RE.opt (seqList [ RE.plus1 pyIsSpace, strToRe "[AS"
                      , RE.grp "asn" (RE.plus1 Char.isDigit)
                      , RE.cls (fun c => isWordChar c ∨ c = '?'), chrRe ']' ]) ]

/-- The full dialect-A summary pattern `rs` of `_parse_route_summary_bird1`:
`(?P<prefix>[a-f0-9\.:\/]+)?(\s+)?((?:via\s+(?P<peer>[^\s]+)\s+on\s+|\s+dev\s+)(?P<interface>[^\s]+)|(?:\w+)?)?\s+` + tail. -/
def bird1SummaryRe : RE :=
  seqList
    [ RE.opt (RE.grp "prefix" (RE.plus1 isAddrChar))
    , RE.opt (RE.plus1 pyIsSpace)
    , RE.opt (RE.alt
        (RE.seq
          (RE.alt
            (seqList [ strToRe "via", RE.plus1 pyIsSpace
                     , RE.grp "peer" (RE.plus1 isNotSpace)
                     , RE.plus1 pyIsSpace, strToRe "on", RE.plus1 pyIsSpace ])
            (seqList [ RE.plus1 pyIsSpace, strToRe "dev", RE.plus1 pyIsSpace ]))
          (RE.grp "interface" (RE.plus1 isNotSpace)))
        (RE.opt (RE.plus1 isWordChar)))
    , RE.plus1 pyIsSpace
    , summaryTailRe ]

/-- The dialect-B first-line pattern `rs0` of `_parse_route_summary_bird2`:
`(\s)?(?P<prefix>[a-f0-9\.:\/]+)?(\s+)?(?:unicast|blackhole)\s+` + tail. -/
def bird2Line0Re : RE :=
  seqList
    [ RE.opt (RE.cls pyIsSpace)
    , RE.opt (RE.grp "prefix" (RE.plus1 isAddrChar))
    , RE.opt (RE.plus1 pyIsSpace)
    , RE.alt (strToRe "unicast") (strToRe "blackhole")
    , RE.plus1 pyIsSpace
    , summaryTailRe ]

/-- The dialect-B second-line pattern `rs1`:
`(?:^\s+via\s+(?P<peer>[a-f0-9\.:\/]+)\s+on\s+|^\s+dev\s+)(?P<interface>[\w]+)`. -/
def bird2Line1Re : RE :=
  RE.seq
    (RE.alt
      (seqList [ RE.plus1 pyIsSpace, strToRe "via", RE.plus1 pyIsSpace
               , RE.grp "peer" (RE.plus1 isAddrChar)
               , RE.plus1 pyIsSpace, strToRe "on", RE.plus1 pyIsSpace ])
      (seqList [ RE.plus1 pyIsSpace, strToRe "dev", RE.plus1 pyIsSpace ]))
    (RE.grp "interface" (RE.plus1 isWordChar))

/-- `Type:\s+(?P<type>[\w\s]+)` of `_parse_route_type`. -/
def routeTypeRe : RE :=
  seqList [ strToRe "Type:", RE.plus1 pyIsSpace
          , RE.grp "type" (RE.plus1 isWordOrSpace) ]

/-- `^(?:(?P<proto>[\w]+))\.(?:(?P<atribute>[\w]+))(?:\:[\s]+(?P<value>[\s\w\W]+)?)`
of `_parse_route_detail` (`[\s\w\W]` matches any character). -/
def routeDetailRe : RE :=
  seqList [ RE.grp "proto" (RE.plus1 isWordChar), chrRe '.'
          , RE.grp "atribute" (RE.plus1 isWordChar), chrRe ':'
          , RE.plus1 pyIsSpace
          , RE.opt (RE.grp "value" (RE.plus1 (fun _ => true))) ]

/-- `(\d+) <label>` — the four `Routes:` counter patterns
(`routes_field_imported_re` …). -/
def routesCountRe (label : String) : RE :=
  RE.seq (RE.grp "n" (RE.plus1 Char.isDigit)) (strToRe (" " ++ label))

/-! ### `_extract_field_number` -/

/-- `_extract_field_number`: `findall`/`sub` with the anchored pattern
`^(\d+)[ -]` reduce to a single anchored match, whose group is the code and
whose removal leaves the cleaned line (then `strip("-")` and `strip()`). -/
def extractFieldNumber (line : String) : Option Nat × String :=
  match pyMatch fieldNumberRe line with
  | some (rest, env) =>
      (natOfDigits ((lookupCap env "num").getD ""),
       pyStrip (pyStripDash (String.mk rest)))
  | Option.none => (Option.none, pyStrip line)

/-! ### The datetime model

`datetime.datetime` is modelled by a plain record; `datetime(...)`'s
constructor validation (year 1–9999, calendar-valid month/day, in-range
time fields) is `DT.Valid`, and the branches of `_calculate_datetime`
fall through on construction failure exactly as the Python `except
ValueError` does. -/

structure DT where
  year : Nat
  month : Nat
  day : Nat
  hour : Nat
  minute : Nat
  second : Nat
deriving DecidableEq, Repr

def isLeapYear (y : Nat) : Bool := (y % 4 = 0 ∧ y % 100 ≠ 0) ∨ y % 400 = 0

def daysInMonth (y m : Nat) : Nat :=
  if m = 2 then (if isLeapYear y then 29 else 28)
  else if m = 4 ∨ m = 6 ∨ m = 9 ∨ m = 11 then 30
  else 31

/-- `datetime(y, m, d)` succeeds. -/
def dateValid (y m d : Nat) : Bool :=
  1 ≤ y ∧ y ≤ 9999 ∧ 1 ≤ m ∧ m ≤ 12 ∧ 1 ≤ d ∧ d ≤ daysInMonth y m

/-- `datetime(y, m, d, h, mi, s)` succeeds. -/
def DT.Valid (t : DT) : Bool :=
  dateValid t.year t.month t.day ∧ t.hour ≤ 23 ∧ t.minute ≤ 59 ∧ t.second ≤ 59

/-- `d - timedelta(days=1)` on the date part; `none` is the
`OverflowError` at `0001-01-01`. -/
def predDate (y m d : Nat) : Option (Nat × Nat × Nat) :=
  if 2 ≤ d then some (y, m, d - 1)
  else if 2 ≤ m then some (y, m - 1, daysInMonth y (m - 1))
  else if 2 ≤ y then some (y - 1, 12, 31)
  else Option.none

/-- Zero-padded decimal rendering. -/
def padNum (width n : Nat) : String :=
  let s := natToStr n
  String.mk (List.replicate (width - s.length) '0') ++ s

/-- `strftime('%m/%d/%Y %H:%M:%S')` — the output format of
`_calculate_datetime` (`%Y` is not zero-padded by glibc). -/
def fmtDT (t : DT) : String :=
  padNum 2 t.month ++ "/" ++ padNum 2 t.day ++ "/" ++ natToStr t.year ++ " " ++
  padNum 2 t.hour ++ ":" ++ padNum 2 t.minute ++ ":" ++ padNum 2 t.second

/-! ### `strptime` field parsers

Each parser mirrors the regular expression CPython's `_strptime` compiles
for the directive, with its alternatives in order (for these formats the
alternatives are mutually exclusive with the following literal, so
first-match is faithful). -/

/-- `%Y` — exactly four digits. -/
def pYear4 : List Char → Option (Nat × List Char)
  | a :: b :: c :: d :: rest =>
      if a.isDigit ∧ b.isDigit ∧ c.isDigit ∧ d.isDigit then
        (digitsVal [a, b, c, d]).map (fun n => (n, rest))
      else Option.none
  | _ => Option.none

/-- `%H` — `2[0-3]|[0-1]\d|\d`. -/
def pHour : List Char → Option (Nat × List Char)
  | a :: b :: rest =>
      if a = '2' ∧ '0' ≤ b ∧ b ≤ '3' then (digitsVal [a, b]).map (·, rest)
      else if ('0' = a ∨ a = '1') ∧ b.isDigit then (digitsVal [a, b]).map (·, rest)
      else if a.isDigit then (digitsVal [a]).map (·, b :: rest)
      else Option.none
  | [a] => if a.isDigit then (digitsVal [a]).map (·, ([] : List Char)) else Option.none
  | [] => Option.none

/-- `%M` — `[0-5]\d|\d`. -/
def pMinute : List Char → Option (Nat × List Char)
  | a :: b :: rest =>
      if '0' ≤ a ∧ a ≤ '5' ∧ b.isDigit then (digitsVal [a, b]).map (·, rest)
      else if a.isDigit then (digitsVal [a]).map (·, b :: rest)
      else Option.none
  | [a] => if a.isDigit then (digitsVal [a]).map (·, ([] : List Char)) else Option.none
  | [] => Option.none

/-- `%S` — `6[0-1]|[0-5]\d|\d`. -/
def pSecond : List Char → Option (Nat × List Char)
  | a :: b :: rest =>
      if a = '6' ∧ ('0' = b ∨ b = '1') then (digitsVal [a, b]).map (·, rest)
      else if '0' ≤ a ∧ a ≤ '5' ∧ b.isDigit then (digitsVal [a, b]).map (·, rest)
      else if a.isDigit then (digitsVal [a]).map (·, b :: rest)
      else Option.none
  | [a] => if a.isDigit then (digitsVal [a]).map (·, ([] : List Char)) else Option.none
  | [] => Option.none

/-- `%m` — `1[0-2]|0[1-9]|[1-9]`. -/
def pMonth : List Char → Option (Nat × List Char)
  | a :: b :: rest =>
      if a = '1' ∧ '0' ≤ b ∧ b ≤ '2' then (digitsVal [a, b]).map (·, rest)
      else if a = '0' ∧ '1' ≤ b ∧ b ≤ '9' then (digitsVal [a, b]).map (·, rest)
      else if '1' ≤ a ∧ a ≤ '9' then (digitsVal [a]).map (·, b :: rest)
      else Option.none
  | [a] => if '1' ≤ a ∧ a ≤ '9' then (digitsVal [a]).map (·, ([] : List Char)) else Option.none
  | [] => Option.none

/-- `%d` — `3[01]|[1-2]\d|0[1-9]|[1-9]| [1-9]`. -/
def pDay : List Char → Option (Nat × List Char)
  | a :: b :: rest =>
      if a = '3' ∧ ('0' = b ∨ b = '1') then (digitsVal [a, b]).map (·, rest)
      else if ('1' = a ∨ a = '2') ∧ b.isDigit then (digitsVal [a, b]).map (·, rest)
      else if a = '0' ∧ '1' ≤ b ∧ b ≤ '9' then (digitsVal [a, b]).map (·, rest)
      else if '1' ≤ a ∧ a ≤ '9' then (digitsVal [a]).map (·, b :: rest)
      else if a = ' ' ∧ '1' ≤ b ∧ b ≤ '9' then (digitsVal [b]).map (·, rest)
      else Option.none
  | [a] => if '1' ≤ a ∧ a ≤ '9' then (digitsVal [a]).map (·, ([] : List Char)) else Option.none
  | [] => Option.none

/-- `%b` — a case-insensitive three-letter month abbreviation. -/
def pMonthAbbr : List Char → Option (Nat × List Char)
  | a :: b :: c :: rest =>
      let w := String.mk [a.toLower, b.toLower, c.toLower]
      let abbrs := ["jan", "feb", "mar", "apr", "may", "jun",
                    "jul", "aug", "sep", "oct", "nov", "dec"]
      (abbrs.indexOf? w).map (fun i => (i + 1, rest))
  | _ => Option.none

/-- A literal separator character in a format. -/
def pLit (c : Char) : List Char → Option (List Char)
  | c' :: rest => if c' = c then some rest else Option.none
  | [] => Option.none

/-- Whitespace in a `strptime` format matches one or more whitespace
characters in the data. -/
def pWs1 : List Char → Option (List Char)
  | c :: rest => if pyIsSpace c then some (rest.dropWhile pyIsSpace) else Option.none
  | [] => Option.none

/-- `datetime.strptime(v, "%H:%M")` (shape only; `%H`/`%M` already bound
their ranges). The whole string must be consumed. -/
def strptimeHM (v : String) : Option (Nat × Nat) :=
  match pHour v.data with
  | some (h, r1) =>
      match pLit ':' r1 with
      | some r2 =>
          match pMinute r2 with
          | some (m, []) => some (h, m)
          | _ => Option.none
      | Option.none => Option.none
  | Option.none => Option.none

/-- `datetime.strptime(v, "%H:%M:%S")`. -/
def strptimeHMS (v : String) : Option (Nat × Nat × Nat) :=
  match pHour v.data with
  | some (h, r1) =>
      match pLit ':' r1 with
      | some r2 =>
          match pMinute r2 with
          | some (m, r3) =>
              match pLit ':' r3 with
              | some r4 =>
                  match pSecond r4 with
                  | some (s, []) => some (h, m, s)
                  | _ => Option.none
              | Option.none => Option.none
          | Option.none => Option.none
      | Option.none => Option.none
  | Option.none => Option.none

/-- `datetime.strptime(v, "%b%d")`; `strptime` builds `datetime(1900, m, d)`,
so the day is validated against year 1900. -/
def strptimeMonthDay (v : String) : Option (Nat × Nat) :=
  match pMonthAbbr v.data with
  | some (m, r1) =>
      match pDay r1 with
      | some (d, []) => if d ≤ daysInMonth 1900 m then some (m, d) else Option.none
      | _ => Option.none
  | Option.none => Option.none

/-- `datetime.strptime(v, "%Y-%m-%d %H:%M:%S")`, calendar-validated. -/
def strptimeYmdHms (v : String) : Option DT :=
  match pYear4 v.data with
  | some (y, r1) =>
      match pLit '-' r1 with
      | some r2 =>
          match pMonth r2 with
          | some (mo, r3) =>
              match pLit '-' r3 with
              | some r4 =>
                  match pDay r4 with
                  | some (d, r5) =>
                      match pWs1 r5 with
                      | some r6 =>
                          match strptimeHMS (String.mk r6) with
                          | some (h, mi, s) =>
                              let t : DT := ⟨y, mo, d, h, mi, s⟩
                              if t.Valid then some t else Option.none
                          | Option.none => Option.none
                      | Option.none => Option.none
                  | Option.none => Option.none
              | Option.none => Option.none
          | Option.none => Option.none
      | Option.none => Option.none
  | Option.none => Option.none

/-- `datetime.strptime(v, "%d-%m-%Y %H:%M:%S")`, calendar-validated. -/
def strptimeDmyHms (v : String) : Option DT :=
  match pDay v.data with
  | some (d, r1) =>
      match pLit '-' r1 with
      | some r2 =>
          match pMonth r2 with
          | some (mo, r3) =>
              match pLit '-' r3 with
              | some r4 =>
                  match pYear4 r4 with
                  | some (y, r5) =>
                      match pWs1 r5 with
                      | some r6 =>
                          match strptimeHMS (String.mk r6) with
                          | some (h, mi, s) =>
                              let t : DT := ⟨y, mo, d, h, mi, s⟩
                              if t.Valid then some t else Option.none
                          | Option.none => Option.none
                      | Option.none => Option.none
                  | Option.none => Option.none
              | Option.none => Option.none
          | Option.none => Option.none
      | Option.none => Option.none
  | Option.none => Option.none

/-! ### `_calculate_datetime` -/

/-- Python slice `value[a:b]`. -/
def pySlice (s : String) (a b : Nat) : String :=
  String.mk ((s.data.drop a).take (b - a))

/-- Case 1 of `_calculate_datetime`:
`datetime(*map(int, (value[:4], value[5:7], value[8:10], value[11:13],
value[14:16], value[17:19]))).strftime(...)`, falling through on any
`int()` or constructor `ValueError`. -/
def calcCase1 (value : String) : Option String :=
  match pyInt (pySlice value 0 4), pyInt (pySlice value 5 7),
        pyInt (pySlice value 8 10), pyInt (pySlice value 11 13),
        pyInt (pySlice value 14 16), pyInt (pySlice value 17 19) with
  | some y, some mo, some d, some h, some mi, some s =>
      if 0 ≤ y ∧ 0 ≤ mo ∧ 0 ≤ d ∧ 0 ≤ h ∧ 0 ≤ mi ∧ 0 ≤ s then
        let t : DT := ⟨y.toNat, mo.toNat, d.toNat, h.toNat, mi.toNat, s.toNat⟩
        if t.Valid then some (fmtDT t) else Option.none
      else Option.none
  | _, _, _, _, _, _ => Option.none

/-- Case 2: `datetime(*map(int, (value[:4], value[5:7], value[8:10])))`. -/
def calcCase2 (value : String) : Option String :=
  match pyInt (pySlice value 0 4), pyInt (pySlice value 5 7),
        pyInt (pySlice value 8 10) with
  | some y, some mo, some d =>
      if 0 ≤ y ∧ 0 ≤ mo ∧ 0 ≤ d then
        let t : DT := ⟨y.toNat, mo.toNat, d.toNat, 0, 0, 0⟩
        if t.Valid then some (fmtDT t) else Option.none
      else Option.none
  | _, _, _ => Option.none

/-- Case 3's `try: strptime(v, "%H:%M") except ValueError:
strptime(v, "%H:%M:%S")`, yielding the hour and minute that are used
(the parsed seconds are discarded by `datetime(now.year, now.month,
now.day, parsed_value.hour, parsed_value.minute)`). -/
def timeOfDayHM (v : String) : Option (Nat × Nat) :=
  match strptimeHM v with
  | some (h, m) => some (h, m)
  | Option.none => (strptimeHMS v).map (fun t => (t.1, t.2.1))

/-- Case 4's year inference from `now` for a `"%b%d"` value. -/
def inferYear (now : DT) (pm pd : Nat) : Nat :=
  if now.month = pm then
    (if now.day ≤ pd then now.year - 1 else now.year)
  else if pm < now.month then now.year
  else now.year - 1

/-- `_calculate_datetime(value, now)`.  Returns the
`strftime('%m/%d/%Y %H:%M:%S')` string; `.error` is a raised exception
(`ValueError` when every format fails, `OverflowError` when case 3 steps
back from `0001-01-01`). -/
def calculateDatetime (value : String) (now : DT) : Except PyExc String :=
  match calcCase1 value with
  | some out => .ok out
  | Option.none =>
  match calcCase2 value with
  | some out => .ok out
  | Option.none =>
  -- case 3 first reassigns `value = value.split(".")[0]`; the reassigned
  -- value is what cases 4 and 5 then see
  let v := ((pySplitChar value '.').headD "")
  match timeOfDayHM v with
  | some (h, m) =>
      -- `datetime(now.year, now.month, now.day, h, m)`: on an invalid
      -- `now` date this raises ValueError and case 3 falls through
      if dateValid now.year now.month now.day then
        if now.hour < h ∨ (now.hour = h ∧ now.minute < m) then
          match predDate now.year now.month now.day with
          | some (y', m', d') => .ok (fmtDT ⟨y', m', d', h, m, 0⟩)
          | Option.none => .error .overflowError
        else .ok (fmtDT ⟨now.year, now.month, now.day, h, m, 0⟩)
      else calcRest v now
  | Option.none => calcRest v now
where
  /-- Cases 4 and 5, on the reassigned value. -/
  calcRest (v : String) (now : DT) : Except PyExc String :=
    match strptimeMonthDay v with
    | some (pm, pd) =>
        let y := inferYear now pm pd
        -- `datetime(year, parsed.month, parsed.day)`: a ValueError here is
        -- caught by case 4's `except` and falls through to case 5
        if dateValid y pm pd then .ok (fmtDT ⟨y, pm, pd, 0, 0, 0⟩)
        else calcCase5 v
    | Option.none => calcCase5 v
  /-- Case 5: a bare year, else the final `ValueError`. -/
  calcCase5 (v : String) : Except PyExc String :=
    match pyInt v with
    | some y =>
        if 1 ≤ y ∧ y ≤ 9999 then .ok (fmtDT ⟨y.toNat, 1, 1, 0, 0, 0⟩)
        else .error (.valueError ("Can not parse datetime: [" ++ v ++ "]"))
    | Option.none => .error (.valueError ("Can not parse datetime: [" ++ v ++ "]"))

/-! ### `_parse_router_status_line` -/

/-- `_parse_router_status_line(line, parse_date)`: take
`line.strip().split(" ", 3)[-1]`; with `parse_date` drop a fractional
suffix and try `%Y-%m-%d %H:%M:%S` then the legacy `%d-%m-%Y %H:%M:%S`. -/
def parseRouterStatusLine (line : String) (parseDate : Bool) :
    Except PyExc (String ⊕ DT) :=
  let data := lastOfSplitSpace3 (pyStrip line)
  if parseDate then
    let d := (pySplitChar data '.').headD ""
    match strptimeYmdHms d with
    | some t => .ok (.inr t)
    | Option.none =>
        match strptimeDmyHms d with
        | some t => .ok (.inr t)
        | Option.none =>
            .error (.valueError ("time data does not match format: " ++ d))
  else .ok (.inl data)

/-! ### `_parse_route_data` and its helpers

Python appends the *same* dict object to `routes` at a code-0 line and
keeps mutating it until `route_summary` is rebound, so the accumulated
list stores either sealed records or an alias of the in-progress record
(`REntry.cur`); aliases are frozen to the current value whenever
`route_summary` is rebound, and resolve to the final in-progress value at
`return routes`. -/

/-- Shared post-processing of both summary parsers: resolve the
`peer`/`peer2` double capture and normalise `best` to a boolean. -/
def summaryPost (route : Rec) : Rec :=
  let route :=
    if ¬ pyTruthy ((pyGet route "peer").getD PyVal.none) then
      -- route["peer"] = route.pop("peer2")
      pyDel (pySet route "peer" ((pyGet route "peer2").getD PyVal.none)) "peer2"
    else pyDel route "peer2"
  if (pyGet route "best").getD PyVal.none ≠ PyVal.none then
    pySet route "best" (PyVal.b true)
  else pySet route "best" (PyVal.b false)

/-- Group names of the dialect-A summary pattern, in pattern order. -/
def bird1Names : List String :=
  ["prefix", "peer", "interface", "source", "time", "peer2", "best", "preference", "asn"]

/-- Group names of the dialect-B first-line pattern, in pattern order. -/
def bird2Line0Names : List String :=
  ["prefix", "source", "time", "peer2", "best", "preference", "asn"]

/-- `_parse_route_summary_bird1`. -/
def parseRouteSummaryBird1 (line : String) : Except PyExc Rec :=
  match pyMatch bird1SummaryRe line with
  | Option.none =>
      .error (.valueError ("couldn't parse bird1 line '" ++ line ++ "'"))
  | some m => .ok (summaryPost (groupdictOf bird1Names m.2))

/-- `_parse_route_summary_bird2` on the summary line and the raw next line. -/
def parseRouteSummaryBird2 (line0 nxt : String) : Except PyExc Rec :=
  let m0 := pyMatch bird2Line0Re line0
  let m1 := pyMatch bird2Line1Re nxt
  match m0 with
  | Option.none =>
      .error (.valueError ("couldn't parse bird2 line '" ++ line0 ++ "'"))
  | some m0 =>
      match m1 with
      | Option.none =>
          .error (.valueError ("couldn't parse bird2 line '" ++ nxt ++ "'"))
      | some m1 =>
          .ok (summaryPost (pyUpdate (groupdictOf bird2Line0Names m0.2)
            (groupdictOf ["peer", "interface"] m1.2)))

/-- `_parse_route_type`. -/
def parseRouteType (line : String) : Except PyExc Rec :=
  match pyMatch routeTypeRe line with
  | Option.none =>
      .error (.valueError ("couldn't parse Type line '" ++ line ++ "'"))
  | some m => .ok [("type", match lookupCap m.2 "type" with
      | some v => PyVal.s v
      | Option.none => PyVal.none)]

/-- `_parse_route_detail`: `(proto, atribute, value)` with the
`community`/`ext_community` rewrites applied.  An unmatched line is the
Python `AttributeError` on `None.groupdict()`; a `None` value under a
rewriting attribute is the `AttributeError` on `None.replace`. -/
def parseRouteDetail (line : String) : Except PyExc (String × String × Option String) :=
  match pyMatch routeDetailRe line with
  | Option.none => .error .attributeError
  | some m =>
      let proto := (lookupCap m.2 "proto").getD ""
      let attr := (lookupCap m.2 "atribute").getD ""
      let value := lookupCap m.2 "value"
      if attr = "community" then
        match value with
        | Option.none => .error .attributeError
        | some v =>
            .ok (proto, attr, some (pyReplace (pyReplace (pyReplace v "," ":") "(" "") ")" ""))
      else if attr = "ext_community" then
        match value with
        | Option.none => .error .attributeError
        | some v =>
            .ok (proto, attr, some (pyReplace (pyReplace (pyReplace v ", " ":") "(" "") ")" ""))
      else .ok (proto, attr, value)

/-- An element of the Python `routes` list: a sealed record, or an alias
of the in-progress `route_summary` dict. -/
inductive REntry where
  | done (r : Rec)
  | cur
deriving DecidableEq, Repr

/-- Loop state of `_parse_route_data`. -/
structure RState where
  routes : List REntry
  summary : Rec
  prevPfx : PyVal
  prevNum : Nat
deriving DecidableEq, Repr

/-- Rebinding `route_summary` freezes every alias at its current value. -/
def freezeMarks (es : List REntry) (r : Rec) : List REntry :=
  es.map (fun e => match e with | .cur => .done r | x => x)

/-- `return routes`: aliases resolve to the final in-progress value. -/
def finalizeRoutes (es : List REntry) (r : Rec) : List Rec :=
  es.map (fun e => match e with | .done x => x | .cur => r)

/-- The body of the 1007 branch, after the seal-and-reset step. -/
def route1007 (all : List String) (idx : Nat) (routes : List REntry)
    (summary : Rec) (pfx : PyVal) (line : String) :
    Except PyExc (List REntry × Rec × PyVal) :=
  if line = "" ∨ pyStartsWith line "Table" then .ok (routes, summary, pfx)
  else
    -- if bird2route.match(line): route_summary = _parse_route_summary_bird2(...)
    let step2 : Except PyExc (List REntry × Rec) :=
      if (pyMatch bird2routeRe line).isSome then
        match all.get? (idx + 1) with
        | Option.none => .error .indexError   -- lines[counter+1]
        | some nxt =>
            match parseRouteSummaryBird2 line nxt with
            | .error e => .error e
            | .ok r => .ok (freezeMarks routes summary, r)
      else .ok (routes, summary)
    match step2 with
    | .error e => .error e
    | .ok (routes, summary) =>
        -- if bird1route.match(line): route_summary = _parse_route_summary_bird1(line)
        let step1 : Except PyExc (List REntry × Rec) :=
          if (pyMatch bird1routeRe line).isSome then
            match parseRouteSummaryBird1 line with
            | .error e => .error e
            | .ok r => .ok (freezeMarks routes summary, r)
          else .ok (routes, summary)
        match step1 with
        | .error e => .error e
        | .ok (routes, summary) =>
            match pyGet summary "prefix" with
            | Option.none => .ok (routes, summary, pfx)
            | some v =>
                if v = PyVal.none then .ok (routes, pySet summary "prefix" pfx, pfx)
                else .ok (routes, summary, v)

/-- One iteration of the `for line in lines` loop; `.ok none` is the
early `return []` at code 8001. -/
def routeStep (short : Bool) (all : List String) (idx : Nat)
    (st : RState) (rawLine : String) : Except PyExc (Option RState) :=
  let p := extractFieldNumber rawLine
  let number := p.1.getD st.prevNum
  let line := p.2
  if number = 1007 then
    let sealed :=
      if st.summary.length > 0 then
        (freezeMarks st.routes st.summary ++ [.done st.summary], ([] : Rec))
      else (st.routes, st.summary)
    match route1007 all idx sealed.1 sealed.2 st.prevPfx line with
    | .error e => .error e
    | .ok (routes, summary, pfx) =>
        .ok (some { routes := routes, summary := summary, prevPfx := pfx,
                    prevNum := number })
  else if number = 1008 then
    match parseRouteType line with
    | .error e => .error e
    | .ok t =>
        .ok (some { st with summary := pyUpdate st.summary t, prevNum := number })
  else if number = 0 then
    .ok (some { st with routes := st.routes ++ [.cur], prevNum := number })
  else if ¬ short ∧ number = 1012 then
    if st.summary = [] then .ok (some { st with prevNum := number })
    else
      match parseRouteDetail line with
      | .error e => .error e
      | .ok (proto, attr, value) =>
          match pyGet st.summary proto with
          | some (PyVal.m mp) =>
              .ok (some { st with
                summary := pySet st.summary proto (PyVal.m (setAssoc mp attr value)),
                prevNum := number })
          | some _ => .error .typeError
          | Option.none =>
              .ok (some { st with
                summary := pySet st.summary proto (PyVal.m [(attr, value)]),
                prevNum := number })
  else if number = 8001 then .ok Option.none
  else .ok (some { st with prevNum := number })

/-- The `for` loop of `_parse_route_data`. -/
def routeLoop (short : Bool) (all : List String) :
    Nat → RState → List String → Except PyExc (List Rec)
  | _, st, [] => .ok (finalizeRoutes st.routes st.summary)
  | idx, st, l :: rest =>
      match routeStep short all idx st l with
      | .error e => .error e
      | .ok Option.none => .ok []
      | .ok (some st') => routeLoop short all (idx + 1) st' rest

/-- The initial loop state (`routes=[]`, `route_summary={}`,
`prev_prefix=None`, `prev_number=1007`). -/
def routeInit : RState := ⟨[], [], PyVal.none, 1007⟩

/-- `_parse_route_data` applied to an already-split line list. -/
def parseRouteLines (short : Bool) (lines : List String) : Except PyExc (List Rec) :=
  routeLoop short lines 0 routeInit lines

/-- `_parse_route_data(data, short=True)`. -/
def parseRouteData (data : String) : Except PyExc (List Rec) :=
  parseRouteLines true (pySplitlines data)

/-! ### `_parse_configure` -/

/-- The class attribute `error_fields`. -/
def errorFields : List Nat := [13, 19, 8001, 8002, 8003, 9000, 9001, 9002]

/-- The class attribute `success_fields`. -/
def successFields : List Nat := [0, 3, 4, 18, 20]

/-- The class attribute `ignored_field_numbers`. -/
def ignoredFieldNumbers : List Nat := [0, 1, 13, 2002, 9001]

/-- Python `fieldno in fields` for an optional field number. -/
def optMem (no : Option Nat) (fields : List Nat) : Bool :=
  match no with
  | some n => n ∈ fields
  | Option.none => false

/-- Python falsiness of `self.config_file` (`None` or the empty string). -/
def cfgFalsy : Option String → Bool
  | Option.none => true
  | some s => s = ""

/-- The line scan of `_parse_configure`, threading `self.config_file`.
`.ok (some msg)` is `return line` on an error code, `.ok none` is
`return None` on a success code, exhaustion raises. -/
def parseConfLines (cfg : Option String) : List String → Except PyExc (Option String)
  | [] => .error (.valueError "unable to parse configure response")
  | l :: rest =>
      let p := extractFieldNumber l
      if p.1 = some 2 then
        if cfgFalsy cfg then
          match (pySplitChar p.2 ' ').get? 3 with
          | some c => parseConfLines (some c) rest
          | Option.none => .error .indexError   -- line.split(" ")[3]
        else parseConfLines cfg rest
      else if optMem p.1 errorFields then .ok (some p.2)
      else if optMem p.1 successFields then .ok Option.none
      else parseConfLines cfg rest

/-- `_parse_configure(data)` with the remembered `config_file`. -/
def parseConfigure (cfg : Option String) (data : String) : Except PyExc (Option String) :=
  parseConfLines cfg (pySplitlines data)

/-! ### `_parse_peer_summary`, `_parse_peer_detail`, `_parse_peer_data` -/

/-- `_parse_peer_summary(line)`; `now` is the clock reading that
`_calculate_datetime` takes via its `datetime.now()` default. -/
def parsePeerSummary (line : String) (now : DT) : Except PyExc Rec :=
  let elements := pySplitWs line
  -- the try/except IndexError around the state/up fields
  let stup : PyVal × PyVal :=
    match elements.get? 5 with
    | Option.none => (PyVal.none, PyVal.none)
    | some e5 =>
        if pyContainsChar e5 ':' then
          match elements.get? 6 with
          | Option.none => (PyVal.none, PyVal.none)
          | some e6 => (PyVal.s e6, PyVal.b (pyLower e6 = "established"))
        else (PyVal.s e5, PyVal.b (pyLower e5 = "established"))
  -- `elements[4]` (and hence `elements[0]`, `elements[1]`) is accessed
  -- outside the try block, so a short line raises IndexError
  match elements with
  | e0 :: e1 :: _ :: _ :: e4 :: _ =>
      match calculateDatetime e4 now with
      | .error e => .error e
      | .ok lastChange =>
          .ok [("name", PyVal.s e0), ("protocol", PyVal.s e1),
               ("last_change", PyVal.s lastChange),
               ("state", stup.1), ("up", stup.2)]
  | _ => .error .indexError

/-- The four route-change-stat labels. -/
def routeChangeFields : List String :=
  ["import updates", "import withdraws", "export updates", "export withdraws"]

/-- The scalar-label `field_map` of `_parse_peer_detail`. -/
def fieldMap : List (String × String) :=
  [("description", "description"), ("neighbor id", "router_id"),
   ("neighbor address", "address"), ("neighbor as", "asn"),
   ("source address", "source"), ("preference", "preference"),
   ("input filter", "input_filter"), ("output filter", "output_filter"),
   ("route limit", "route_limit"), ("hold timer", "hold_timer"),
   ("keepalive timer", "keepalive_timer")]

def lookupStr (assoc : List (String × String)) (k : String) : Option String :=
  match assoc with
  | [] => Option.none
  | (k', v) :: rest => if k' = k then some v else lookupStr rest k

/-- `_parse_route_stats(result, key_name, value)`: "---" columns are
skipped, anything else goes through `int(value)`. -/
def parseRouteStats (result : Rec) (keyName value : String) : Except PyExc Rec :=
  if pyStrip value = "---" then .ok result
  else
    match pyInt value with
    | some n => .ok (pySet result keyName (PyVal.i n))
    | Option.none =>
        .error (.valueError ("invalid literal for int() with base 10: " ++ value))

/-- The `Routes:` counters: `int(findall(...)[0]) if findall else 0` for
each of the four sub-patterns, in source order. -/
def applyRoutesCounters (result : Rec) (value : String) : Rec :=
  let count (label : String) : Int :=
    match reSearch (routesCountRe label) value.data with
    | some m => ((lookupCap m.2 "n").bind (fun d => natOfDigits d)).getD 0
    | Option.none => 0
  let result := pySet result "routes_imported" (PyVal.i (count "imported"))
  let result := pySet result "routes_exported" (PyVal.i (count "exported"))
  let result := pySet result "routes_filtered" (PyVal.i (count "filtered"))
  pySet result "routes_preferred" (PyVal.i (count "preferred"))

/-- One iteration of `_parse_peer_detail`'s loop over the buffered block. -/
def peerDetailStep (result : Rec) (rawLine : String) : Except PyExc Rec :=
  let line := pyStrip rawLine
  match pySplitColon1 line with
  | Option.none => .ok result   -- no colon: the caught ValueError, skip
  | some (field, v0) =>
      let value := pyStrip v0
      let fl := pyLower field
      let result := if fl = "routes" then applyRoutesCounters result value else result
      if fl ∈ routeChangeFields then
        match pySplitWs value with
        | [c1, c2, c3, c4, c5] =>
            let base := pyReplace (pyLower field) " " "_"
            match parseRouteStats result (base ++ "_received") c1 with
            | .error e => .error e
            | .ok r1 =>
            match parseRouteStats r1 (base ++ "_rejected") c2 with
            | .error e => .error e
            | .ok r2 =>
            match parseRouteStats r2 (base ++ "_filtered") c3 with
            | .error e => .error e
            | .ok r3 =>
            match parseRouteStats r3 (base ++ "_ignored") c4 with
            | .error e => .error e
            | .ok r4 => parseRouteStats r4 (base ++ "_accepted") c5
        | _ => .error (.valueError "not enough values to unpack")
      else
        match lookupStr fieldMap fl with
        | some mapped => .ok (pySet result mapped (PyVal.s value))
        | Option.none => .ok result

/-- `_parse_peer_detail(peer_detail_raw)`. -/
def parsePeerDetail (block : List String) : Except PyExc Rec :=
  block.foldlM peerDetailStep []

/-- Seal a buffered code-1006 detail block: parse it, merge the summary
over it (`peer_detail.update(peer_summary)`) and prepend the peer. -/
def sealDetail (peers : List Rec) (summary : Rec) (bufRev : List String) :
    Except PyExc (List Rec) :=
  match parsePeerDetail bufRev.reverse with
  | .error e => .error e
  | .ok det => .ok (pyUpdate det summary :: peers)

/-- The `for line in lineiterator` loop of `_parse_peer_data`.  The
`while line.strip() != ""` buffering of a code-1006 detail block pulls
lines from the same iterator, modelled by the `collecting` mode
(`some (summary, buffered lines in reverse)`): while collecting, raw
lines are buffered until a blank line seals the block; running out of
lines first is the uncaught `StopIteration` of `next(lineiterator)`. -/
def peerLoop (detail : Bool) (now : DT) :
    List Rec → Option Rec → Option (Rec × List String) →
    List String → Except PyExc (List Rec)
  | peers, _, Option.none, [] => .ok peers.reverse
  | _, _, some _, [] => .error .stopIteration
  | peers, pending, some (summary, bufRev), l :: rest =>
      if pyStrip l = "" then
        match sealDetail peers summary bufRev with
        | .error e => .error e
        | .ok peers' => peerLoop detail now peers' Option.none Option.none rest
      else peerLoop detail now peers pending (some (summary, l :: bufRev)) rest
  | peers, pending, Option.none, rawLine :: rest =>
      let line := pyStrip rawLine
      let p := extractFieldNumber line
      if optMem p.1 ignoredFieldNumbers then
        peerLoop detail now peers pending Option.none rest
      else
        -- field 1002: parse a summary, dropping non-BGP protocols
        match (if p.1 = some 1002 then
                 match parsePeerSummary p.2 now with
                 | .error e => .error e
                 | .ok s =>
                     if pyGet s "protocol" = some (PyVal.s "BGP") then
                       .ok (some (some s))          -- new pending summary
                     else .ok Option.none           -- `continue`
               else .ok (some pending) : Except PyExc (Option (Option Rec))) with
        | .error e => .error e
        | .ok Option.none => peerLoop detail now peers Option.none Option.none rest
        | .ok (some pending) =>
            -- `if not data_contains_detail: peers.append_peer_summary()`
            -- — an unconditional AttributeError on a list
            if ¬ detail then .error .attributeError
            else if p.1 = some 1006 then
              match pending with
              | Option.none => peerLoop detail now peers Option.none Option.none rest
              | some summary =>
                  -- the while loop tests the cleaned first line itself
                  if pyStrip p.2 = "" then
                    match sealDetail peers summary [] with
                    | .error e => .error e
                    | .ok peers' =>
                        peerLoop detail now peers' Option.none Option.none rest
                  else
                    peerLoop detail now peers Option.none (some (summary, [p.2])) rest
            else peerLoop detail now peers pending Option.none rest

/-- `_parse_peer_data(data, data_contains_detail)`; `now` is the ambient
clock read by `_calculate_datetime`'s `datetime.now()` default. -/
def parsePeerData (data : String) (detail : Bool) (now : DT) : Except PyExc (List Rec) :=
  peerLoop detail now [] Option.none Option.none (pySplitlines data)

/-! ### Spec-side definitions for the Line Classifier (claim C8)

`specLineClassifierClaim` renders the claim's wording literally (only a
*leading* run of `-` is removed from the remainder); `specLineClassifier`
renders the amended wording (`-` stripped from both ends, then
whitespace).  Both are compared against the regex-based
`extractFieldNumber` from the source. -/

/-- Modelled from the claim's words: code and separator stripped, then
"the remainder with any leftover leading `-` and surrounding whitespace
removed". -/
def specLineClassifierClaim (line : String) : Option Nat × String :=
  let ds := line.data.takeWhile Char.isDigit
  match line.data.drop ds.length with
  | c :: rest =>
      if ds ≠ [] ∧ (c = ' ' ∨ c = '-') then
        (natOfDigits (String.mk ds),
         pyStrip (String.mk (rest.dropWhile (fun x => x = '-'))))
      else (Option.none, pyStrip line)
  | [] => (Option.none, pyStrip line)

/-- Modelled from the amended claim: a line starting with one or more
digits immediately followed by `-` or a space yields that integer and the
remainder with `-` stripped from *both* ends and then surrounding
whitespace removed; any other line yields no code and the trimmed line. -/
def specLineClassifier (line : String) : Option Nat × String :=
  let ds := line.data.takeWhile Char.isDigit
  match line.data.drop ds.length with
  | c :: rest =>
      if ds ≠ [] ∧ (c = ' ' ∨ c = '-') then
        (natOfDigits (String.mk ds), pyStrip (pyStripDash (String.mk rest)))
      else (Option.none, pyStrip line)
  | [] => (Option.none, pyStrip line)

/-! ## Helper lemmas -/

deriving instance DecidableEq for Except

theorem pyGet_pySet_self (d : Rec) (k : String) (v : PyVal) :
    pyGet (pySet d k v) k = some v := by
  induction d with
  | nil => simp [pySet, pyGet]
  | cons p rest ih =>
      by_cases h : p.1 = k <;> simp [pySet, pyGet, h, ih]

theorem pyGet_pySet_ne (d : Rec) (k k' : String) (v : PyVal) (h : k' ≠ k) :
    pyGet (pySet d k v) k' = pyGet d k' := by
  have h' : ¬ (k = k') := fun hh => h hh.symm
  induction d with
  | nil => simp [pySet, pyGet, h']
  | cons p rest ih =>
      by_cases hp : p.1 = k
      · have hq : ¬ p.1 = k' := fun hh => h' (hp.symm.trans hh)
        simp [pySet, pyGet, hp, hq, h']
      · by_cases hq : p.1 = k' <;> simp [pySet, pyGet, hp, hq, ih, h]

theorem freezeMarks_append (a b : List REntry) (r : Rec) :
    freezeMarks (a ++ b) r = freezeMarks a r ++ freezeMarks b r := by
  simp [freezeMarks]

theorem freezeMarks_freezeMarks (l : List REntry) (a b : Rec) :
    freezeMarks (freezeMarks l a) b = freezeMarks l a := by
  induction l with
  | nil => simp [freezeMarks]
  | cons e rest ih =>
      cases e <;> simpa [freezeMarks] using ih

/-- Composition form of `freezeMarks_freezeMarks` (the shape `simp`'s
`map_map` produces). -/
theorem freezeFun_comp (a b : Rec) :
    ((fun e => match e with | REntry.cur => REntry.done b | x => x) ∘
     (fun e => match e with | REntry.cur => REntry.done a | x => x)) =
    (fun e => match e with | REntry.cur => REntry.done a | x => x) := by
  funext e
  cases e <;> rfl

/-- String `++` is left-cancellative (used to separate the distinct
counter keys built from a common label). -/
theorem strAppend_left_cancel_iff (a s t : String) : a ++ s = a ++ t ↔ s = t := by
  constructor
  · intro h
    have hd := congrArg String.data h
    simp [String.data_append] at hd
    exact String.ext hd
  · intro h; rw [h]

/-! ## Claim C2 — the Timestamp Resolver on the two date spellings -/

/-- Claim C2, counterexample.  The claim says `_calculate_datetime` maps
the legacy dash string `"10-01-2012 10:24:37"` and the ISO string
`"2012-01-10 10:24:37"` to the same resolved instant for every `now`; in
fact the resolver raises `ValueError` on the dash string (none of its five
fallback formats accepts it) while it resolves the ISO string, so the two
are never equal — exhibited here at one concrete `now`. -/
theorem c2_counterexample :
    calculateDatetime "10-01-2012 10:24:37" ⟨2012, 1, 10, 12, 0, 0⟩ =
      .error (.valueError "Can not parse datetime: [10-01-2012 10:24:37]") ∧
    calculateDatetime "2012-01-10 10:24:37" ⟨2012, 1, 10, 12, 0, 0⟩ =
      .ok "01/10/2012 10:24:37" ∧
    calculateDatetime "10-01-2012 10:24:37" ⟨2012, 1, 10, 12, 0, 0⟩ ≠
      calculateDatetime "2012-01-10 10:24:37" ⟨2012, 1, 10, 12, 0, 0⟩ := by
  refine ⟨by decide, by decide, by decide⟩

/-- Claim C2, amended.  `_calculate_datetime` rejects the legacy
dash-separated spelling with `ValueError` for *every* reference time
`now`; the component that does resolve both spellings to the same instant
is `_parse_router_status_line(·, parse_date=True)`, whose `%Y-%m-%d` /
legacy `%d-%m-%Y` fallback maps both date strings to the identical
datetime. -/
theorem c2_amended_dash_format (now : DT) :
    calculateDatetime "10-01-2012 10:24:37" now =
      .error (.valueError "Can not parse datetime: [10-01-2012 10:24:37]") ∧
    parseRouterStatusLine "Last reboot on 10-01-2012 10:24:37" true =
      .ok (.inr ⟨2012, 1, 10, 10, 24, 37⟩) ∧
    parseRouterStatusLine "Last reboot on 10-01-2012 10:24:37" true =
      parseRouterStatusLine "Last reboot on 2012-01-10 10:24:37" true := by
  refine ⟨?_, by decide, by decide⟩
  have h1 : calcCase1 "10-01-2012 10:24:37" = Option.none := by decide
  have h2 : calcCase2 "10-01-2012 10:24:37" = Option.none := by decide
  have hv : pySplitChar "10-01-2012 10:24:37" '.' = ["10-01-2012 10:24:37"] := by
    decide
  have h3 : timeOfDayHM "10-01-2012 10:24:37" = Option.none := by decide
  have h4 : strptimeMonthDay "10-01-2012 10:24:37" = Option.none := by decide
  have h5 : pyInt "10-01-2012 10:24:37" = Option.none := by decide
  simp [calculateDatetime, calculateDatetime.calcRest, calculateDatetime.calcCase5,
    h1, h2, hv, h3, h4, h5]

/-! ## Claim C6 — decoder purity -/

/-- The reply used to exhibit the peer decoder's clock dependence. -/
def c6Reply : String :=
  "1002-PS1 BGP T_PS1 start Jun13 Established\n1006-Description: test\n\n"

/-- Claim C6, counterexample.  The Peer Status Decoder is *not* a pure
function of the reply string: `_parse_peer_summary` calls
`_calculate_datetime` without a reference time, so `datetime.now()` is
read at invocation time.  Two invocations on the same input with
different clock readings return different `last_change` values
(`06/13/2012` vs `06/13/2013` for the summary timestamp `Jun13`). -/
theorem c6_counterexample :
    parsePeerData c6Reply true ⟨2012, 6, 14, 0, 0, 0⟩ ≠
      parsePeerData c6Reply true ⟨2013, 6, 14, 0, 0, 0⟩ := by decide

/-- Claim C6, amended.  Every decoder is deterministic in the complete
reply string *plus the clock reading at invocation*: for a fixed ambient
`now` (the `datetime.now()` default of `_calculate_datetime`), repeated
invocations of the route, configure and peer decoders on the same input
yield equal structured results.  The reference timestamp of the peer
decoder is however not a parameter — it is sampled from the clock — so
invocations at different times may disagree (see the counterexample). -/
theorem c6_amended_determinism (data : String) (short detail : Bool)
    (cfg : Option String) (now : DT) :
    parseRouteLines short (pySplitlines data) =
      parseRouteLines short (pySplitlines data) ∧
    parseConfigure cfg data = parseConfigure cfg data ∧
    parsePeerData data detail now = parsePeerData data detail now :=
  ⟨rfl, rfl, rfl⟩

/-! ## Claim C5 — code 8001 forces an empty route sequence -/

theorem routeStep_8001 (short : Bool) (all : List String) (idx : Nat)
    (st : RState) (l t : String) (h : extractFieldNumber l = (some 8001, t)) :
    routeStep short all idx st l = .ok Option.none := by
  simp [routeStep, h]

theorem routeLoop_8001 (short : Bool) (all : List String) :
    ∀ (rest : List String) (idx : Nat) (st : RState) (r : List Rec),
      routeLoop short all idx st rest = .ok r →
      (∃ l ∈ rest, ∃ t, extractFieldNumber l = (some 8001, t)) → r = [] := by
  intro rest
  induction rest with
  | nil => intro idx st r _ hex; simp at hex
  | cons l rest' ih =>
      intro idx st r hok hex
      rw [routeLoop] at hok
      rcases hstep : routeStep short all idx st l with e | o
      · rw [hstep] at hok; cases hok
      · cases o with
        | none => rw [hstep] at hok; cases hok; rfl
        | some st' =>
            rw [hstep] at hok
            rcases hex with ⟨lx, hmem, t, hext⟩
            rcases List.mem_cons.mp hmem with heq | hmem'
            · subst heq
              rw [routeStep_8001 short all idx st lx t hext] at hstep
              cases hstep
            · exact ih (idx + 1) st' r hok ⟨lx, hmem', t, hext⟩

/-- Claim C5.  For every route reply that the Route Table Decoder decodes
successfully and that contains a line whose extracted field number is
8001, the returned sequence is empty, regardless of the records
accumulated from earlier lines (the decoder `return []`s at the 8001
line, discarding them). -/
theorem c5_code8001_empty (short : Bool) (lines : List String) (r : List Rec)
    (hok : parseRouteLines short lines = .ok r)
    (h8001 : ∃ l ∈ lines, ∃ t, extractFieldNumber l = (some 8001, t)) :
    r = [] :=
  routeLoop_8001 short lines lines 0 routeInit r hok h8001

/-- Claim C5, witness: a reply that accumulated one route record before
the 8001 line still decodes to the empty sequence. -/
theorem c5_witness :
    parseRouteLines true
      ["1007-2a02:898::/32      via 2001:7f8:1::a500:8954:1 on eth1 [PS2 12:46] * (100) [AS8283i]",
       "8001 Network not in table"] = .ok [] ∧ ([] : List Rec) = [] := by
  constructor
  · decide
  · exact c5_code8001_empty true
      ["1007-2a02:898::/32      via 2001:7f8:1::a500:8954:1 on eth1 [PS2 12:46] * (100) [AS8283i]",
       "8001 Network not in table"] []
      (by decide)
      ⟨"8001 Network not in table", by decide, "Network not in table", by decide⟩

/-! ## Claim C10 — a code-0 line with no record in progress appends `{}` -/

theorem routeStep_inert (short : Bool) (all : List String) (idx : Nat)
    (st : RState) (l t : String) (n : Nat)
    (hext : extractFieldNumber l = (some n, t))
    (hn : n ≠ 1007 ∧ n ≠ 1008 ∧ n ≠ 0 ∧ n ≠ 8001 ∧ n ≠ 1012) :
    routeStep short all idx st l = .ok (some { st with prevNum := n }) := by
  simp [routeStep, hext, hn.1, hn.2.1, hn.2.2.1, hn.2.2.2.1, hn.2.2.2.2]

/-- Claim C10.  In `_parse_route_data`, a line with extracted code 0
appends the in-progress `route_summary` dict to the output even when it
is empty: on a reply whose preceding lines all carry inert codes (none of
1007/1008/0/8001/1012) the result is the one-element sequence containing
the empty record, not the empty sequence. -/
theorem c10_code0_empty_record (short : Bool) (pre : List String) (z zt : String)
    (hz : extractFieldNumber z = (some 0, zt))
    (hpre : ∀ l ∈ pre, ∃ n t, extractFieldNumber l = (some n, t) ∧
        n ≠ 1007 ∧ n ≠ 1008 ∧ n ≠ 0 ∧ n ≠ 8001 ∧ n ≠ 1012) :
    parseRouteLines short (pre ++ [z]) = .ok [([] : Rec)] := by
  have main : ∀ (ps : List String) (idx : Nat) (pfx : PyVal) (pn : Nat),
      (∀ l ∈ ps, ∃ n t, extractFieldNumber l = (some n, t) ∧
          n ≠ 1007 ∧ n ≠ 1008 ∧ n ≠ 0 ∧ n ≠ 8001 ∧ n ≠ 1012) →
      routeLoop short (pre ++ [z]) idx ⟨[], [], pfx, pn⟩ (ps ++ [z]) =
        .ok [([] : Rec)] := by
    intro ps
    induction ps with
    | nil =>
        intro idx pfx pn _
        have hs : routeStep short (pre ++ [z]) idx ⟨[], [], pfx, pn⟩ z =
            .ok (some ⟨[.cur], [], pfx, 0⟩) := by simp [routeStep, hz]
        simp [routeLoop, hs, finalizeRoutes]
    | cons l ps' ih =>
        intro idx pfx pn hps
        obtain ⟨n, t, hext, hn⟩ := hps l (List.mem_cons_self l ps')
        have hs := routeStep_inert short (pre ++ [z]) idx ⟨[], [], pfx, pn⟩ l t n hext hn
        simp only [List.cons_append, routeLoop, hs]
        exact ih (idx + 1) pfx n (fun l' hl' => hps l' (List.mem_cons_of_mem l hl'))
  exact main pre 0 PyVal.none 1007 hpre

/-- Claim C10, witness: a reply whose only coded lines are the banner and
the code-0 terminator decodes to `[{}]`. -/
theorem c10_witness :
    parseRouteLines true ["0001 BIRD 1.3.3 ready.", "0000 "] = .ok [([] : Rec)] :=
  c10_code0_empty_record true ["0001 BIRD 1.3.3 ready."] "0000 " "" (by decide)
    (by
      intro l hl
      rw [List.mem_singleton] at hl
      subst hl
      exact ⟨1, "BIRD 1.3.3 ready.", by decide,
        by decide, by decide, by decide, by decide, by decide⟩)

/-! ## Claim C3 — the Configure-Result Classifier -/

/-- A line the configure scan passes over without returning: its code is
in neither terminal set, and if it is a code-2 line its cleaned text has
at least four space-separated pieces (so `line.split(" ")[3]` cannot
raise). -/
def confInert (l : String) : Prop :=
  optMem (extractFieldNumber l).1 errorFields = false ∧
  optMem (extractFieldNumber l).1 successFields = false ∧
  ((extractFieldNumber l).1 = some 2 →
    4 ≤ (pySplitChar (extractFieldNumber l).2 ' ').length)

instance (l : String) : Decidable (confInert l) := by
  unfold confInert
  infer_instance

theorem parseConfLines_skip :
    ∀ (pre : List String) (cfg : Option String) (rest : List String),
      (∀ l ∈ pre, confInert l) →
      ∃ cfg', parseConfLines cfg (pre ++ rest) = parseConfLines cfg' rest := by
  intro pre
  induction pre with
  | nil => intro cfg rest _; exact ⟨cfg, rfl⟩
  | cons l pre' ih =>
      intro cfg rest hpre
      obtain ⟨he, hs, h2⟩ := hpre l (List.mem_cons_self l pre')
      have htail : ∀ l' ∈ pre', confInert l' :=
        fun l' hl' => hpre l' (List.mem_cons_of_mem l hl')
      rw [List.cons_append, parseConfLines]
      by_cases hc2 : (extractFieldNumber l).1 = some 2
      · by_cases hcf : cfgFalsy cfg = true
        · obtain ⟨c, hc⟩ : ∃ c,
              (pySplitChar (extractFieldNumber l).2 ' ').get? 3 = some c := by
            rcases hget : (pySplitChar (extractFieldNumber l).2 ' ').get? 3 with _ | c
            · exact absurd (h2 hc2) (by have := List.get?_eq_none.mp hget; omega)
            · exact ⟨c, rfl⟩
          simp only [hc2, hcf, hc, if_pos rfl, if_true]
          exact ih (some c) rest htail
        · simp only [hc2, if_pos rfl, hcf]
          simp only [Bool.false_eq_true, if_false]
          exact ih cfg rest htail
      · simp only [hc2, if_neg, he, hs, Bool.false_eq_true, if_false]
        exact ih cfg rest htail

theorem parseConfLines_inert (ls : List String) (cfg : Option String)
    (h : ∀ l ∈ ls, confInert l) :
    parseConfLines cfg ls = .error (.valueError "unable to parse configure response") := by
  obtain ⟨cfg', hh⟩ := parseConfLines_skip ls cfg [] h
  rw [List.append_nil] at hh
  rw [hh, parseConfLines]

/-- Claim C3.  The Configure-Result Classifier scans the reply lines in
order and returns at the first decisive line: if, after any run of inert
lines, the next line's code is in the Error set it returns a failure
carrying exactly that line's cleaned text; if its code is in the Success
set it returns success; and the result does not depend on the lines after
the decisive one (the same `post` never influences the result).  If every
line of the reply is inert the scan raises the structural
`ValueError("unable to parse configure response")`. -/
theorem c3_configure_first_decisive (cfg : Option String)
    (pre post : List String) (l : String)
    (hpre : ∀ lp ∈ pre, confInert lp) :
    (optMem (extractFieldNumber l).1 errorFields = true →
       parseConfLines cfg (pre ++ l :: post) = .ok (some (extractFieldNumber l).2)) ∧
    (optMem (extractFieldNumber l).1 errorFields = false →
       optMem (extractFieldNumber l).1 successFields = true →
       parseConfLines cfg (pre ++ l :: post) = .ok Option.none) ∧
    ((∀ lp ∈ l :: post, confInert lp) →
       parseConfLines cfg (pre ++ l :: post) =
         .error (.valueError "unable to parse configure response")) := by
  obtain ⟨cfg', hskip⟩ := parseConfLines_skip pre cfg (l :: post) hpre
  refine ⟨?_, ?_, ?_⟩
  · intro herr
    have hne2 : ¬ (extractFieldNumber l).1 = some 2 := by
      intro h
      rw [h] at herr
      exact absurd herr (by decide)
    rw [hskip, parseConfLines]
    simp [hne2, herr]
  · intro herr hsucc
    have hne2 : ¬ (extractFieldNumber l).1 = some 2 := by
      intro h
      rw [h] at hsucc
      exact absurd hsucc (by decide)
    rw [hskip, parseConfLines]
    simp [hne2, herr, hsucc]
  · intro hinert
    rw [hskip]
    exact parseConfLines_inert (l :: post) cfg' hinert

/-- Claim C3, witness: a configure reply with a banner line and a code-2
configuration-path line followed by a code-8002 error returns the failure
with that line's cleaned text, ignoring a later success line; the same
reply with a code-20 terminal instead returns success. -/
theorem c3_witness :
    parseConfLines Option.none
      ("0001 BIRD 1.4.5 ready." :: "0002-Reading configuration from /etc/bird.conf" ::
        "8002 /etc/bird.conf, line 3: syntax error" :: ["0003 Reconfigured"]) =
      .ok (some "/etc/bird.conf, line 3: syntax error") ∧
    parseConfLines Option.none
      ("0001 BIRD 1.4.5 ready." :: "0002-Reading configuration from /etc/bird.conf" ::
        "0020 Configuration OK" :: []) = .ok Option.none := by
  constructor
  · have h := (c3_configure_first_decisive Option.none
      ["0001 BIRD 1.4.5 ready.", "0002-Reading configuration from /etc/bird.conf"]
      ["0003 Reconfigured"] "8002 /etc/bird.conf, line 3: syntax error"
      (by decide)).1 (by decide)
    rw [show (extractFieldNumber "8002 /etc/bird.conf, line 3: syntax error").2 =
      "/etc/bird.conf, line 3: syntax error" from by decide] at h
    exact h
  · exact (c3_configure_first_decisive Option.none
      ["0001 BIRD 1.4.5 ready.", "0002-Reading configuration from /etc/bird.conf"]
      [] "0020 Configuration OK" (by decide)).2.1 (by decide) (by decide)

/-! ## Claim C7 — the Peer Status state token -/

/-- Claim C7.  In `_parse_peer_summary`, whenever the decoder returns a
record for a summary line with at least six whitespace tokens: the state
is token 6 when token 5 contains a colon and token 5 otherwise; `up` is
true iff the chosen state equals "established" case-insensitively; and
when token 5 has a colon but the line is short one field (no token 6),
`state` and `up` are both `None`. -/
theorem c7_peer_state_token (line : String) (now : DT) (r : Rec) (t5 : String)
    (ht5 : (pySplitWs line).get? 5 = some t5)
    (hr : parsePeerSummary line now = .ok r) :
    (pyContainsChar t5 ':' = false →
       pyGet r "state" = some (PyVal.s t5) ∧
       pyGet r "up" = some (PyVal.b (pyLower t5 = "established"))) ∧
    (pyContainsChar t5 ':' = true →
       (∀ t6, (pySplitWs line).get? 6 = some t6 →
          pyGet r "state" = some (PyVal.s t6) ∧
          pyGet r "up" = some (PyVal.b (pyLower t6 = "established"))) ∧
       ((pySplitWs line).get? 6 = Option.none →
          pyGet r "state" = some PyVal.none ∧ pyGet r "up" = some PyVal.none)) := by
  obtain ⟨e0, e1, e2, e3, e4, rest', hsh⟩ :
      ∃ e0 e1 e2 e3 e4 rest',
        pySplitWs line = e0 :: e1 :: e2 :: e3 :: e4 :: t5 :: rest' := by
    rcases hels : pySplitWs line with
        _ | ⟨e0, _ | ⟨e1, _ | ⟨e2, _ | ⟨e3, _ | ⟨e4, _ | ⟨e5, rest'⟩⟩⟩⟩⟩⟩ <;>
      rw [hels] at ht5 <;> simp at ht5
    exact ⟨e0, e1, e2, e3, e4, rest', by rw [ht5]⟩
  rw [hsh] at ht5 ⊢
  simp [parsePeerSummary, hsh] at hr
  by_cases hcol : pyContainsChar t5 ':' = true
  · rcases rest' with _ | ⟨e6, rest''⟩
    · simp only [hcol] at hr
      try simp at hr
      rcases hcd : calculateDatetime e4 now with e | lc <;> rw [hcd] at hr
      · cases hr
      · cases hr
        refine ⟨fun hc => absurd hcol (by simp [hc]), fun _ => ⟨?_, ?_⟩⟩
        · intro t6 ht6; simp at ht6
        · intro _; exact ⟨by simp [pyGet], by simp [pyGet]⟩
    · simp only [hcol] at hr
      try simp at hr
      rcases hcd : calculateDatetime e4 now with e | lc <;> rw [hcd] at hr
      · cases hr
      · cases hr
        refine ⟨fun hc => absurd hcol (by simp [hc]), fun _ => ⟨?_, ?_⟩⟩
        · intro t6 ht6
          simp at ht6
          subst ht6
          exact ⟨by simp [pyGet], by simp [pyGet]⟩
        · intro hnone; simp at hnone
  · simp only [Bool.not_eq_true] at hcol
    simp only [hcol] at hr
    try simp at hr
    rcases hcd : calculateDatetime e4 now with e | lc <;> rw [hcd] at hr
    · cases hr
    · cases hr
      refine ⟨fun _ => ⟨by simp [pyGet], by simp [pyGet]⟩,
        fun hc => absurd hc (by simp [hcol])⟩

/-- The record `_parse_peer_summary` produces for the witness line. -/
def c7Rec : Rec :=
  [("name", PyVal.s "PS1"), ("protocol", PyVal.s "BGP"),
   ("last_change", PyVal.s "06/13/2012 00:00:00"),
   ("state", PyVal.s "Passive"), ("up", PyVal.b false)]

/-- Claim C7, witness: the colon-free six-token line
`"PS1 BGP T_PS1 start Jun13 Passive"` takes its state from token 5. -/
theorem c7_witness :
    pyGet c7Rec "state" = some (PyVal.s "Passive") ∧
    pyGet c7Rec "up" = some (PyVal.b (pyLower "Passive" = "established")) :=
  (c7_peer_state_token "PS1 BGP T_PS1 start Jun13 Passive" ⟨2012, 6, 14, 0, 0, 0⟩
    c7Rec "Passive" (by decide) (by decide)).1 (by decide)

/-! ## Claim C4 — bare-time resolution against `now` -/

/-- Claim C4, counterexample.  The claim says a bare time resolves to the
previous calendar day *exactly when* the parsed time-of-day is
chronologically after `now`'s time-of-day.  With `now` at 13:30:00 the raw
value `"13:30:45"` is chronologically later (by 45 seconds), yet
`_calculate_datetime` compares only hours and minutes and keeps `now`'s
own day (and drops the parsed seconds): the result is
`01/10/2012 13:30:00`, not a time on 01/09. -/
theorem c4_counterexample :
    calculateDatetime "13:30:45" ⟨2012, 1, 10, 13, 30, 0⟩ = .ok "01/10/2012 13:30:00" ∧
    (13 * 3600 + 30 * 60 + 45 > 13 * 3600 + 30 * 60 + 0) ∧
    fmtDT ⟨2012, 1, 9, 13, 30, 45⟩ ≠ "01/10/2012 13:30:00" := by
  refine ⟨by decide, by decide, by decide⟩

/-- Claim C4, amended.  For a raw value in `HH:MM` / `HH:MM:SS[.frac]`
form (cases 1 and 2 fail and the time-of-day parse succeeds with hour
`hh` and minute `mm`), `_calculate_datetime` combines `hh:mm` — the
parsed seconds are discarded — with `now`'s calendar date, and shifts
back one calendar day exactly when `(hh, mm)` is lexicographically after
`(now.hour, now.minute)`; seconds take no part in the comparison.  (At
the minimum representable date the shift is an `OverflowError`.) -/
theorem c4_bare_time (v : String) (now : DT)
    (hvalid : dateValid now.year now.month now.day = true)
    (h1 : calcCase1 v = Option.none) (h2 : calcCase2 v = Option.none)
    (hh mm : Nat)
    (h3 : timeOfDayHM ((pySplitChar v '.').headD "") = some (hh, mm)) :
    (¬ (now.hour < hh ∨ (now.hour = hh ∧ now.minute < mm)) →
       calculateDatetime v now = .ok (fmtDT ⟨now.year, now.month, now.day, hh, mm, 0⟩)) ∧
    (∀ y' m' d', (now.hour < hh ∨ (now.hour = hh ∧ now.minute < mm)) →
       predDate now.year now.month now.day = some (y', m', d') →
       calculateDatetime v now = .ok (fmtDT ⟨y', m', d', hh, mm, 0⟩)) ∧
    ((now.hour < hh ∨ (now.hour = hh ∧ now.minute < mm)) →
       predDate now.year now.month now.day = Option.none →
       calculateDatetime v now = .error .overflowError) := by
  simp only [List.headD_eq_head?_getD] at h3
  refine ⟨?_, ?_, ?_⟩
  · intro hc
    simp [calculateDatetime, h1, h2, h3, hvalid, hc]
  · intro y' m' d' hc hpred
    simp [calculateDatetime, h1, h2, h3, hvalid, hc, hpred]
  · intro hc hpred
    simp [calculateDatetime, h1, h2, h3, hvalid, hc, hpred]

/-- Claim C4, witness: with `now` = 2012-01-10 12:00 the raw value
`"13:30"` resolves to 13:30:00 on the previous calendar day. -/
theorem c4_witness :
    calculateDatetime "13:30" ⟨2012, 1, 10, 12, 0, 0⟩ =
      .ok (fmtDT ⟨2012, 1, 9, 13, 30, 0⟩) ∧
    fmtDT ⟨2012, 1, 9, 13, 30, 0⟩ = "01/09/2012 13:30:00" :=
  ⟨(c4_bare_time "13:30" ⟨2012, 1, 10, 12, 0, 0⟩ (by decide) (by decide) (by decide)
      13 30 (by decide)).2.1 2012 1 9 (by decide) (by decide),
   by decide⟩

/-! ## Claim C1 — prefix continuation in the Route Table Decoder -/

/-- The first-record dialect-B block with no prefix capture, used to
refute the claim's "decoding fails" half. -/
def c1NoPfxLines : List String :=
  ["1007-unicast [rs2_ipv4 10:03:04.436] (100) [AS65010i]",
   "    via 10.123.123.20 on eth0"]

/-- Claim C1, counterexample.  The claim says that when the very first
record of a reply has no explicit prefix capture, decoding fails rather
than producing a record.  In fact `_parse_route_data` backfills the
missing prefix from `prev_prefix`, which is still `None`, and happily
returns one record whose `prefix` is `None` — no failure. -/
theorem c1_counterexample :
    parseRouteLines true c1NoPfxLines =
      .ok [[("prefix", PyVal.none), ("source", PyVal.s "rs2_ipv4"),
            ("time", PyVal.s "10:03:04.436"), ("best", PyVal.b false),
            ("preference", PyVal.s "100"), ("asn", PyVal.s "65010"),
            ("peer", PyVal.s "10.123.123.20"), ("interface", PyVal.s "eth0")]] := by
  decide

/-- Claim C1, amended.  In the 1007 branch, when a dialect-B summary
block parses with no prefix capture, the freshly started record's
`prefix` is backfilled from `prev_prefix`; under the decoder's running
invariant (the in-progress record's `prefix` equals `prev_prefix`) the
new record's `prefix` therefore equals the just-sealed preceding record's
`prefix`.  A very first record with no prefix capture gets `prefix =
None` instead of failing (see the counterexample). -/
theorem c1_prefix_continuation (short : Bool) (all : List String) (idx : Nat)
    (st : RState) (rawLine nxt : String) (rec : Rec)
    (hnum : (extractFieldNumber rawLine).1 = some 1007)
    (hne : ¬ ((extractFieldNumber rawLine).2 = "" ∨
        pyStartsWith (extractFieldNumber rawLine).2 "Table" = true))
    (hb2 : (pyMatch bird2routeRe (extractFieldNumber rawLine).2).isSome = true)
    (hb1 : (pyMatch bird1routeRe (extractFieldNumber rawLine).2).isSome = false)
    (hnxt : all.get? (idx + 1) = some nxt)
    (hparse : parseRouteSummaryBird2 (extractFieldNumber rawLine).2 nxt = .ok rec)
    (hnopfx : pyGet rec "prefix" = some PyVal.none)
    (hcur : st.summary ≠ [])
    (hinv : pyGet st.summary "prefix" = some st.prevPfx) :
    ∃ st', routeStep short all idx st rawLine = .ok (some st') ∧
      st'.routes = freezeMarks st.routes st.summary ++ [.done st.summary] ∧
      pyGet st'.summary "prefix" = pyGet st.summary "prefix" := by
  refine ⟨⟨freezeMarks st.routes st.summary ++ [.done st.summary],
    pySet rec "prefix" st.prevPfx, st.prevPfx, 1007⟩, ?_, rfl, ?_⟩
  · have hlen : st.summary.length > 0 := by
      cases hsum : st.summary with
      | nil => exact absurd hsum hcur
      | cons a l => simp [hsum]
    simp only [List.get?_eq_getElem?] at hnxt
    simp [routeStep, route1007, hnum, hne, hb2, hnxt, hparse, hb1, hnopfx, hlen,
      freezeMarks_append, freezeMarks_freezeMarks, freezeFun_comp, freezeMarks]
  · rw [pyGet_pySet_self, hinv]

/-- Claim C1, witness: two consecutive dialect-B blocks; the second block
has no prefix capture and its record's `prefix` equals the first
(pending) record's `prefix`. -/
theorem c1_witness :
    ∃ st', routeStep true
        ["1007-                     unicast [rs2_ipv4 10:03:04.436] (100) [AS65010i]",
         "\tvia 10.123.123.20 on eth0"] 0
        ⟨[], [("prefix", PyVal.s "10.0.0.0/24"), ("source", PyVal.s "rs1_ipv4")],
         PyVal.s "10.0.0.0/24", 1007⟩
        "1007-                     unicast [rs2_ipv4 10:03:04.436] (100) [AS65010i]" =
        .ok (some st') ∧
      st'.routes = freezeMarks []
          [("prefix", PyVal.s "10.0.0.0/24"), ("source", PyVal.s "rs1_ipv4")] ++
        [.done [("prefix", PyVal.s "10.0.0.0/24"), ("source", PyVal.s "rs1_ipv4")]] ∧
      pyGet st'.summary "prefix" =
        pyGet [("prefix", PyVal.s "10.0.0.0/24"), ("source", PyVal.s "rs1_ipv4")]
          "prefix" :=
  c1_prefix_continuation true
    ["1007-                     unicast [rs2_ipv4 10:03:04.436] (100) [AS65010i]",
     "\tvia 10.123.123.20 on eth0"] 0
    ⟨[], [("prefix", PyVal.s "10.0.0.0/24"), ("source", PyVal.s "rs1_ipv4")],
     PyVal.s "10.0.0.0/24", 1007⟩
    "1007-                     unicast [rs2_ipv4 10:03:04.436] (100) [AS65010i]"
    "\tvia 10.123.123.20 on eth0"
    [("prefix", PyVal.none), ("source", PyVal.s "rs2_ipv4"),
     ("time", PyVal.s "10:03:04.436"), ("best", PyVal.b false),
     ("preference", PyVal.s "100"), ("asn", PyVal.s "65010"),
     ("peer", PyVal.s "10.123.123.20"), ("interface", PyVal.s "eth0")]
    (by decide) (by decide) (by decide) (by decide) (by decide) (by decide)
    (by decide) (by decide) (by decide)

/-! ## Claim C9 — route-change-stat columns -/

theorem pyInt_some_ne_dash {c : String} {n : Int} (h : pyInt c = some n) :
    (c = "---") = False := by
  refine eq_false ?_
  intro he
  subst he
  rw [show pyInt "---" = Option.none from by decide] at h
  cases h

theorem pyInt_some_strip_ne_dash {c : String} {n : Int} (h : pyInt c = some n) :
    ¬ pyStrip c = "---" := by
  intro he
  have hnone : pyInt c = Option.none := by
    unfold pyInt
    rw [he]
    decide
  rw [hnone] at h
  cases h

/-- `_parse_route_stats` on a column that is either the placeholder or an
integer literal. -/
theorem parseRouteStats_char (r : Rec) (k c : String)
    (h : c = "---" ∨ ∃ n, pyInt c = some n) :
    parseRouteStats r k c =
      .ok (if c = "---" then r else pySet r k (PyVal.i ((pyInt c).getD 0))) := by
  rcases h with h | ⟨n, hn⟩
  · subst h
    have hd : pyStrip "---" = "---" := by decide
    simp [parseRouteStats, hd]
  · have hs := pyInt_some_strip_ne_dash hn
    have hc := pyInt_some_ne_dash hn
    simp [parseRouteStats, hs, hc, hn]

/-- A key not yet present is appended by `pySet`, preserving key order. -/
theorem keys_pySet_fresh (d : Rec) (k : String) (v : PyVal)
    (h : pyGet d k = Option.none) :
    (pySet d k v).map Prod.fst = d.map Prod.fst ++ [k] := by
  induction d with
  | nil => simp [pySet]
  | cons p rest ih =>
      by_cases hp : p.1 = k
      · simp [pyGet, hp] at h
      · simp [pyGet, hp] at h
        simp [pySet, hp, ih h]

/-- Claim C9.  In `_parse_peer_detail`, a route-change-stat line with a
label in `route_change_fields` and five whitespace columns yields, in the
fixed order received/rejected/filtered/ignored/accepted: no key for a
"---" column and the integer value for every other column, with the keys
appearing in exactly that order. -/
theorem c9_route_change_stats (line field v0 base : String)
    (c1 c2 c3 c4 c5 : String)
    (hsplit : pySplitColon1 (pyStrip line) = some (field, v0))
    (hf : pyLower field ∈ routeChangeFields)
    (hbase : base = pyReplace (pyLower field) " " "_")
    (htok : pySplitWs (pyStrip v0) = [c1, c2, c3, c4, c5])
    (h1 : c1 = "---" ∨ ∃ n, pyInt c1 = some n)
    (h2 : c2 = "---" ∨ ∃ n, pyInt c2 = some n)
    (h3 : c3 = "---" ∨ ∃ n, pyInt c3 = some n)
    (h4 : c4 = "---" ∨ ∃ n, pyInt c4 = some n)
    (h5 : c5 = "---" ∨ ∃ n, pyInt c5 = some n) :
    ∃ r, parsePeerDetail [line] = .ok r ∧
      r.map Prod.fst =
        (if c1 = "---" then [] else [base ++ "_received"]) ++
        (if c2 = "---" then [] else [base ++ "_rejected"]) ++
        (if c3 = "---" then [] else [base ++ "_filtered"]) ++
        (if c4 = "---" then [] else [base ++ "_ignored"]) ++
        (if c5 = "---" then [] else [base ++ "_accepted"]) ∧
      (c1 = "---" → pyGet r (base ++ "_received") = Option.none) ∧
      (∀ n, pyInt c1 = some n → pyGet r (base ++ "_received") = some (PyVal.i n)) ∧
      (c2 = "---" → pyGet r (base ++ "_rejected") = Option.none) ∧
      (∀ n, pyInt c2 = some n → pyGet r (base ++ "_rejected") = some (PyVal.i n)) ∧
      (c3 = "---" → pyGet r (base ++ "_filtered") = Option.none) ∧
      (∀ n, pyInt c3 = some n → pyGet r (base ++ "_filtered") = some (PyVal.i n)) ∧
      (c4 = "---" → pyGet r (base ++ "_ignored") = Option.none) ∧
      (∀ n, pyInt c4 = some n → pyGet r (base ++ "_ignored") = some (PyVal.i n)) ∧
      (c5 = "---" → pyGet r (base ++ "_accepted") = Option.none) ∧
      (∀ n, pyInt c5 = some n → pyGet r (base ++ "_accepted") = some (PyVal.i n)) := by
  subst hbase
  set base := pyReplace (pyLower field) " " "_" with hbase
  have kd : ∀ (s t : String), ¬ s = t → ¬ (base ++ s = base ++ t) :=
    fun s t hst heq => hst ((strAppend_left_cancel_iff base s t).mp heq)
  -- the label is none of the other branches' triggers
  have hnr : (pyLower field = "routes") = False ∧
      lookupStr fieldMap (pyLower field) = Option.none := by
    have hf' := hf
    simp only [routeChangeFields, List.mem_cons, List.mem_singleton,
      List.not_mem_nil, or_false] at hf'
    rcases hf' with h | h | h | h <;> rw [h] <;> exact ⟨by simp, by decide⟩
  -- the five result stages
  set R1 : Rec := if c1 = "---" then ([] : Rec)
    else pySet [] (base ++ "_received") (PyVal.i ((pyInt c1).getD 0)) with hR1
  set R2 : Rec := if c2 = "---" then R1
    else pySet R1 (base ++ "_rejected") (PyVal.i ((pyInt c2).getD 0)) with hR2
  set R3 : Rec := if c3 = "---" then R2
    else pySet R2 (base ++ "_filtered") (PyVal.i ((pyInt c3).getD 0)) with hR3
  set R4 : Rec := if c4 = "---" then R3
    else pySet R3 (base ++ "_ignored") (PyVal.i ((pyInt c4).getD 0)) with hR4
  set R5 : Rec := if c5 = "---" then R4
    else pySet R4 (base ++ "_accepted") (PyVal.i ((pyInt c5).getD 0)) with hR5
  have e1 : parseRouteStats [] (base ++ "_received") c1 = .ok R1 :=
    parseRouteStats_char [] _ c1 h1
  have e2 : parseRouteStats R1 (base ++ "_rejected") c2 = .ok R2 :=
    parseRouteStats_char R1 _ c2 h2
  have e3 : parseRouteStats R2 (base ++ "_filtered") c3 = .ok R3 :=
    parseRouteStats_char R2 _ c3 h3
  have e4 : parseRouteStats R3 (base ++ "_ignored") c4 = .ok R4 :=
    parseRouteStats_char R3 _ c4 h4
  have e5 : parseRouteStats R4 (base ++ "_accepted") c5 = .ok R5 :=
    parseRouteStats_char R4 _ c5 h5
  -- stepping a stage leaves other keys untouched
  have step : ∀ (R : Rec) (k k' c : String), ¬ k = k' →
      pyGet (if c = "---" then R else pySet R k' (PyVal.i ((pyInt c).getD 0))) k =
        pyGet R k := by
    intro R k k' c hne
    by_cases h : c = "---" <;> simp [h, pyGet_pySet_ne R k' k _ hne]
  -- key freshness at each stage
  have kn1 : ∀ s, ¬ s = "_received" → pyGet R1 (base ++ s) = Option.none := by
    intro s hs
    rw [hR1, step [] (base ++ s) (base ++ "_received") c1 (kd s "_received" hs)]
    rfl
  have kn2 : ∀ s, ¬ s = "_received" → ¬ s = "_rejected" →
      pyGet R2 (base ++ s) = Option.none := by
    intro s hs1 hs2
    rw [hR2, step R1 (base ++ s) (base ++ "_rejected") c2 (kd s "_rejected" hs2)]
    exact kn1 s hs1
  have kn3 : ∀ s, ¬ s = "_received" → ¬ s = "_rejected" → ¬ s = "_filtered" →
      pyGet R3 (base ++ s) = Option.none := by
    intro s hs1 hs2 hs3
    rw [hR3, step R2 (base ++ s) (base ++ "_filtered") c3 (kd s "_filtered" hs3)]
    exact kn2 s hs1 hs2
  have kn4 : ∀ s, ¬ s = "_received" → ¬ s = "_rejected" → ¬ s = "_filtered" →
      ¬ s = "_ignored" → pyGet R4 (base ++ s) = Option.none := by
    intro s hs1 hs2 hs3 hs4
    rw [hR4, step R3 (base ++ s) (base ++ "_ignored") c4 (kd s "_ignored" hs4)]
    exact kn3 s hs1 hs2 hs3
  -- the final record is R5
  have hres : parsePeerDetail [line] = .ok R5 := by
    simp [parsePeerDetail, peerDetailStep, hsplit, hf, hnr.1, hnr.2, htok,
      e1, e2, e3, e4, e5]
  -- a get at stage i, after a dash or a value
  have getAt : ∀ (R : Rec) (k c : String),
      (c = "---" → pyGet (if c = "---" then R else pySet R k (PyVal.i ((pyInt c).getD 0))) k = pyGet R k) ∧
      (∀ n, pyInt c = some n → pyGet (if c = "---" then R else pySet R k (PyVal.i ((pyInt c).getD 0))) k = some (PyVal.i n)) := by
    intro R k c
    constructor
    · intro h; simp [h]
    · intro n hn
      rw [if_neg (by simp [pyInt_some_ne_dash hn]), pyGet_pySet_self, hn]
      rfl
  refine ⟨R5, hres, ?_, ?_, ?_, ?_, ?_, ?_, ?_, ?_, ?_, ?_, ?_⟩
  · -- key order
    have m1 : R1.map Prod.fst = (if c1 = "---" then [] else [base ++ "_received"]) := by
      rw [hR1]
      by_cases h : c1 = "---" <;> simp [h, keys_pySet_fresh, pyGet]
    have m2 : R2.map Prod.fst = R1.map Prod.fst ++
        (if c2 = "---" then [] else [base ++ "_rejected"]) := by
      rw [hR2]
      by_cases h : c2 = "---" <;>
        simp [h, keys_pySet_fresh R1 _ _ (kn1 "_rejected" (by decide))]
    have m3 : R3.map Prod.fst = R2.map Prod.fst ++
        (if c3 = "---" then [] else [base ++ "_filtered"]) := by
      rw [hR3]
      by_cases h : c3 = "---" <;>
        simp [h, keys_pySet_fresh R2 _ _ (kn2 "_filtered" (by decide) (by decide))]
    have m4 : R4.map Prod.fst = R3.map Prod.fst ++
        (if c4 = "---" then [] else [base ++ "_ignored"]) := by
      rw [hR4]
      by_cases h : c4 = "---" <;>
        simp [h, keys_pySet_fresh R3 _ _
          (kn3 "_ignored" (by decide) (by decide) (by decide))]
    have m5 : R5.map Prod.fst = R4.map Prod.fst ++
        (if c5 = "---" then [] else [base ++ "_accepted"]) := by
      rw [hR5]
      by_cases h : c5 = "---" <;>
        simp [h, keys_pySet_fresh R4 _ _
          (kn4 "_accepted" (by decide) (by decide) (by decide) (by decide))]
    rw [m5, m4, m3, m2, m1]
    try simp [List.append_assoc]
  · -- received, dash column
    intro h
    rw [hR5, step R4 _ _ c5 (kd "_received" "_accepted" (by decide)),
        hR4, step R3 _ _ c4 (kd "_received" "_ignored" (by decide)),
        hR3, step R2 _ _ c3 (kd "_received" "_filtered" (by decide)),
        hR2, step R1 _ _ c2 (kd "_received" "_rejected" (by decide)),
        hR1, (getAt [] (base ++ "_received") c1).1 h]
    try rfl
  · -- received, integer column
    intro n hn
    rw [hR5, step R4 _ _ c5 (kd "_received" "_accepted" (by decide)),
        hR4, step R3 _ _ c4 (kd "_received" "_ignored" (by decide)),
        hR3, step R2 _ _ c3 (kd "_received" "_filtered" (by decide)),
        hR2, step R1 _ _ c2 (kd "_received" "_rejected" (by decide)), hR1]
    exact (getAt [] (base ++ "_received") c1).2 n hn
  · -- rejected, dash column
    intro h
    rw [hR5, step R4 _ _ c5 (kd "_rejected" "_accepted" (by decide)),
        hR4, step R3 _ _ c4 (kd "_rejected" "_ignored" (by decide)),
        hR3, step R2 _ _ c3 (kd "_rejected" "_filtered" (by decide)),
        hR2, (getAt R1 (base ++ "_rejected") c2).1 h]
    exact kn1 "_rejected" (by decide)
  · -- rejected, integer column
    intro n hn
    rw [hR5, step R4 _ _ c5 (kd "_rejected" "_accepted" (by decide)),
        hR4, step R3 _ _ c4 (kd "_rejected" "_ignored" (by decide)),
        hR3, step R2 _ _ c3 (kd "_rejected" "_filtered" (by decide)), hR2]
    exact (getAt R1 (base ++ "_rejected") c2).2 n hn
  · -- filtered, dash column
    intro h
    rw [hR5, step R4 _ _ c5 (kd "_filtered" "_accepted" (by decide)),
        hR4, step R3 _ _ c4 (kd "_filtered" "_ignored" (by decide)),
        hR3, (getAt R2 (base ++ "_filtered") c3).1 h]
    exact kn2 "_filtered" (by decide) (by decide)
  · -- filtered, integer column
    intro n hn
    rw [hR5, step R4 _ _ c5 (kd "_filtered" "_accepted" (by decide)),
        hR4, step R3 _ _ c4 (kd "_filtered" "_ignored" (by decide)), hR3]
    exact (getAt R2 (base ++ "_filtered") c3).2 n hn
  · -- ignored, dash column
    intro h
    rw [hR5, step R4 _ _ c5 (kd "_ignored" "_accepted" (by decide)),
        hR4, (getAt R3 (base ++ "_ignored") c4).1 h]
    exact kn3 "_ignored" (by decide) (by decide) (by decide)
  · -- ignored, integer column
    intro n hn
    rw [hR5, step R4 _ _ c5 (kd "_ignored" "_accepted" (by decide)), hR4]
    exact (getAt R3 (base ++ "_ignored") c4).2 n hn
  · -- accepted, dash column
    intro h
    rw [hR5, (getAt R4 (base ++ "_accepted") c5).1 h]
    exact kn4 "_accepted" (by decide) (by decide) (by decide) (by decide)
  · -- accepted, integer column
    intro n hn
    rw [hR5]
    exact (getAt R4 (base ++ "_accepted") c5).2 n hn

/-- Claim C9, witness: the detail line `"Import updates:  50 3 --- 0 0"`
yields no `import_updates_filtered` key and integer values for the other
four columns, in order. -/
theorem c9_witness :
    ∃ r, parsePeerDetail ["Import updates:  50 3 --- 0 0"] = .ok r ∧
      r.map Prod.fst =
        (if "50" = "---" then [] else ["import_updates" ++ "_received"]) ++
        (if "3" = "---" then [] else ["import_updates" ++ "_rejected"]) ++
        (if "---" = "---" then [] else ["import_updates" ++ "_filtered"]) ++
        (if "0" = "---" then [] else ["import_updates" ++ "_ignored"]) ++
        (if "0" = "---" then [] else ["import_updates" ++ "_accepted"]) ∧
      ("50" = "---" → pyGet r ("import_updates" ++ "_received") = Option.none) ∧
      (∀ n, pyInt "50" = some n →
        pyGet r ("import_updates" ++ "_received") = some (PyVal.i n)) ∧
      ("3" = "---" → pyGet r ("import_updates" ++ "_rejected") = Option.none) ∧
      (∀ n, pyInt "3" = some n →
        pyGet r ("import_updates" ++ "_rejected") = some (PyVal.i n)) ∧
      ("---" = "---" → pyGet r ("import_updates" ++ "_filtered") = Option.none) ∧
      (∀ n, pyInt "---" = some n →
        pyGet r ("import_updates" ++ "_filtered") = some (PyVal.i n)) ∧
      ("0" = "---" → pyGet r ("import_updates" ++ "_ignored") = Option.none) ∧
      (∀ n, pyInt "0" = some n →
        pyGet r ("import_updates" ++ "_ignored") = some (PyVal.i n)) ∧
      ("0" = "---" → pyGet r ("import_updates" ++ "_accepted") = Option.none) ∧
      (∀ n, pyInt "0" = some n →
        pyGet r ("import_updates" ++ "_accepted") = some (PyVal.i n)) :=
  c9_route_change_stats "Import updates:  50 3 --- 0 0" "Import updates"
    "  50 3 --- 0 0" "import_updates" "50" "3" "---" "0" "0"
    (by decide) (by decide) (by decide) (by decide)
    (Or.inr ⟨50, by decide⟩) (Or.inr ⟨3, by decide⟩) (Or.inl rfl)
    (Or.inr ⟨0, by decide⟩) (Or.inr ⟨0, by decide⟩)

/-! ## Claim C8 — the Line Classifier -/

theorem takeWhile_get (p : Char → Bool) :
    ∀ (s : List Char) (k : Nat), k < (s.takeWhile p).length →
      ∃ c, s.get? k = some c ∧ p c = true := by
  intro s
  induction s with
  | nil => intro k hk; simp [List.takeWhile] at hk
  | cons a t ih =>
      intro k hk
      by_cases hp : p a
      · cases k with
        | zero => exact ⟨a, rfl, hp⟩
        | succ k' =>
            simp [List.takeWhile, hp] at hk
            obtain ⟨c, hc, hpc⟩ := ih k' (by omega)
            exact ⟨c, by simpa using hc, hpc⟩
      · simp [List.takeWhile, hp] at hk

theorem take_takeWhile (p : Char → Bool) :
    ∀ s : List Char, s.take (s.takeWhile p).length = s.takeWhile p := by
  intro s
  induction s with
  | nil => simp
  | cons a t ih =>
      by_cases hp : p a <;> simp [List.takeWhile, hp, ih]

theorem digit_not_sep (c : Char) (h : c.isDigit = true) :
    (decide (c = ' ' ∨ c = '-')) = false := by
  by_contra hne
  simp only [Bool.not_eq_false, decide_eq_true_eq] at hne
  rcases hne with rfl | rfl <;> exact absurd h (by decide)

/-- The separator-check continuation of `^(\d+)[ -]` fails on every
strictly shorter digit run (the next character is still a digit). -/
theorem fieldNumber_short_runs (s : List Char) :
    ∀ m, m < (s.takeWhile Char.isDigit).length →
      seqAll ((plusGo s [] m).map
          (fun pr => (pr.1,
            ("num", String.mk (s.take (s.length - pr.1.length))) :: pr.2)))
        (fun s' e' => clsRes (fun c => decide (c = ' ' ∨ c = '-')) s' e') = [] := by
  intro m
  induction m with
  | zero => intro _; rfl
  | succ k ih =>
      intro hm
      obtain ⟨c, hc, hpc⟩ := takeWhile_get Char.isDigit s (k + 1) hm
      have hcls : clsRes (fun c => decide (c = ' ' ∨ c = '-')) (s.drop (k + 1))
          [("num", String.mk (s.take (s.length - (s.drop (k + 1)).length)))] = [] := by
        rcases hdrop : s.drop (k + 1) with _ | ⟨c', rest⟩
        · rfl
        · have hcc : c' = c := by
            have h1 : (s.drop (k + 1)).head? = s.get? (k + 1) := by
              rw [List.head?_drop, List.get?_eq_getElem?]
            rw [hdrop, hc] at h1
            simpa using h1
          subst hcc
          simp [clsRes, digit_not_sep c' hpc]
      simp only [plusGo, List.map_cons, seqAll, hcls, List.nil_append]
      exact ih (by omega)

/-- Full characterisation of `pattern.match` for `^(\d+)[ -]`: it
succeeds exactly when the maximal leading digit run is nonempty and
followed by a space or dash, capturing the run. -/
theorem pyMatch_fieldNumber (line : String) :
    pyMatch fieldNumberRe line =
      (match line.data.drop (line.data.takeWhile Char.isDigit).length with
       | [] => Option.none
       | c :: rest =>
           if (line.data.takeWhile Char.isDigit) ≠ [] ∧ (c = ' ' ∨ c = '-') then
             some (rest, [("num", String.mk (line.data.takeWhile Char.isDigit))])
           else Option.none) := by
  set s := line.data with hs
  have hn_le : (s.takeWhile Char.isDigit).length ≤ s.length :=
    ( List.takeWhile_prefix Char.isDigit).length_le
  rcases hn : (s.takeWhile Char.isDigit).length with _ | m
  · -- the digit run is empty: no match, and the spec condition fails
    have hds : s.takeWhile Char.isDigit = [] := List.length_eq_zero.mp hn
    have : pyMatch fieldNumberRe line = Option.none := by
      simp [pyMatch, reMatch, fieldNumberRe, plusRes, ← hs, hn, plusGo, seqAll]
    rw [this, hds]
    rcases s.drop 0 with _ | ⟨c, rest⟩ <;> simp
  · -- nonempty run: the greedy head is the full run, shorter runs fail
    have hne : s.takeWhile Char.isDigit ≠ [] := by
      intro h
      rw [h] at hn
      cases hn
    have hlen : s.length - (s.drop (m + 1)).length = m + 1 := by
      rw [List.length_drop]
      omega
    have hmain : reMatch fieldNumberRe s [] =
        clsRes (fun c => decide (c = ' ' ∨ c = '-')) (s.drop (m + 1))
          [("num", String.mk (s.take (s.length - (s.drop (m + 1)).length)))] := by
      simp only [fieldNumberRe, reMatch, plusRes, hn, plusGo, List.map_cons, seqAll]
      rw [fieldNumber_short_runs s m (by omega)]
      simp
    have hcap : s.take (s.length - (s.drop (m + 1)).length) =
        s.takeWhile Char.isDigit := by
      rw [hlen, ← hn]
      exact take_takeWhile Char.isDigit s
    rw [pyMatch, ← hs, hmain, hcap]
    rcases hdrop : s.drop (m + 1) with _ | ⟨c, rest⟩
    · rfl
    · by_cases hsep : c = ' ' ∨ c = '-'
      · simp [clsRes, hsep, hne]
      · simp [clsRes, hsep]

/-- Claim C8, counterexample.  The claim's wording removes only a
*leading* `-` (and whitespace) from the remainder, but
`_extract_field_number` strips `-` from both ends before trimming: on
`"100 abc-"` the code returns cleaned text `"abc"` while the claim's
literal reading keeps `"abc-"`. -/
theorem c8_counterexample :
    extractFieldNumber "100 abc-" = (some 100, "abc") ∧
    specLineClassifierClaim "100 abc-" = (some 100, "abc-") ∧
    extractFieldNumber "100 abc-" ≠ specLineClassifierClaim "100 abc-" := by
  refine ⟨by decide, by decide, by decide⟩

/-- Claim C8, amended.  The Line Classifier returns the leading integer
and the remainder with `-` stripped from *both* ends and then surrounding
whitespace removed when the line starts with one or more digits
immediately followed by `-` or a space, and no code together with the
whitespace-trimmed line otherwise — an exact equivalence between the
regex-based `_extract_field_number` and the amended specification. -/
theorem c8_line_classifier (line : String) :
    extractFieldNumber line = specLineClassifier line := by
  rw [extractFieldNumber, pyMatch_fieldNumber, specLineClassifier]
  rcases hdrop : line.data.drop (line.data.takeWhile Char.isDigit).length
    with _ | ⟨c, rest⟩
  · rfl
  · by_cases hcond : (line.data.takeWhile Char.isDigit) ≠ [] ∧ (c = ' ' ∨ c = '-')
    · simp only [if_pos hcond]
      rfl
    · simp only [if_neg hcond]

end Pybird
